import Mathlib

/-!
# juicecon: dewpoint classification and the NWS observation pipeline

A shallow embedding of `internal/juicecon/calculator.go` and
`internal/weather/nws.go`, together with the parts of Go's `float64`
arithmetic and of `encoding/json` that those files rely on.
-/

set_option linter.dupNamespace false
set_option maxRecDepth 100000

namespace Juicecon

/-! ## Go `float64` values -/

/-- Values of Go's `float64`: not-a-number, the two infinities, and the finite
values, each finite value standing for the rational it denotes. The two zeros
are identified (no comparison or operation of the source tells them apart). -/
inductive F64 where
  | nan : F64
  | inf (neg : Bool) : F64
  | fin (q : ℚ) : F64
  deriving DecidableEq

namespace F64

/-- The power of two `2 ^ e` for an integer exponent. -/
def pow2 (e : ℤ) : ℚ :=
  if 0 ≤ e then (2 : ℚ) ^ e.toNat else 1 / (2 : ℚ) ^ (-e).toNat

/-- The number of halvings that bring `n` below 2, at most `fuel` of them:
the position of the leading binary digit of `n` when `fuel` is at least that. -/
def log2Aux : ℕ → ℕ → ℕ
  | 0, _ => 0
  | fuel + 1, n => if n < 2 then 0 else log2Aux fuel (n / 2) + 1

/-- The binary exponent of a positive rational: the `e` with `2 ^ e ≤ a < 2 ^ (e + 1)`. -/
def ilog2 (a : ℚ) : ℤ :=
  let c : ℤ := (log2Aux a.num.natAbs a.num.natAbs : ℤ) - (log2Aux a.den a.den : ℤ)
  if pow2 c ≤ a then c else c - 1

/-- Rounding of a rational to the nearest integer, ties to the even one. -/
def roundHalfEven (x : ℚ) : ℤ :=
  let f : ℤ := x.floor
  let d : ℚ := x - f
  if d < 1 / 2 then f
  else if 1 / 2 < d then f + 1
  else if f % 2 = 0 then f else f + 1

/-- IEEE 754 binary64 rounding (round to nearest, ties to even) of an exact
rational result: 53 significant bits, least exponent -1022 (subnormals below
it), overflow to an infinity from `2 ^ 1024` on. -/
def round (q : ℚ) : F64 :=
  if q = 0 then fin 0
  else
    let e : ℤ := max (ilog2 |q|) (-1022)
    let ulp : ℚ := pow2 (e - 52)
    let r : ℚ := (roundHalfEven (q / ulp) : ℚ) * ulp
    if pow2 1024 ≤ |r| then inf (decide (q < 0)) else fin r

/-- Conversion of an untyped integer constant of the source to `float64`. -/
def ofNat (n : ℕ) : F64 := fin (n : ℚ)

/-- Go's `a >= b` on `float64`: false as soon as one side is not-a-number. -/
def ge : F64 → F64 → Bool
  | nan, _ => false
  | _, nan => false
  | inf false, _ => true
  | inf true, inf true => true
  | inf true, _ => false
  | fin _, inf true => true
  | fin _, inf false => false
  | fin a, fin b => decide (b ≤ a)

/-- Go's `a < b` on `float64`: false as soon as one side is not-a-number. -/
def lt : F64 → F64 → Bool
  | nan, _ => false
  | _, nan => false
  | inf false, _ => false
  | inf true, inf true => false
  | inf true, _ => true
  | fin _, inf true => false
  | fin _, inf false => true
  | fin a, fin b => decide (a < b)

/-- Go's `a * b` on `float64`. -/
def mul : F64 → F64 → F64
  | nan, _ => nan
  | _, nan => nan
  | inf s, inf t => inf (xor s t)
  | inf s, fin b => if b = 0 then nan else inf (xor s (decide (b < 0)))
  | fin a, inf t => if a = 0 then nan else inf (xor (decide (a < 0)) t)
  | fin a, fin b => round (a * b)

/-- Go's `a / b` on `float64` (a zero divisor is taken as `+0`; the source
divides by the constant 5 only). -/
def div : F64 → F64 → F64
  | nan, _ => nan
  | _, nan => nan
  | inf _, inf _ => nan
  | inf s, fin b => inf (xor s (decide (b < 0)))
  | fin _, inf _ => fin 0
  | fin a, fin b =>
    if b = 0 then (if a = 0 then nan else inf (decide (a < 0))) else round (a / b)

/-- Go's `a + b` on `float64`. -/
def add : F64 → F64 → F64
  | nan, _ => nan
  | _, nan => nan
  | inf s, inf t => if s = t then inf s else nan
  | inf s, fin _ => inf s
  | fin _, inf t => inf t
  | fin a, fin b => round (a + b)

end F64

/-! ## `internal/juicecon/calculator.go` -/

/-- The struct `Level`: a JUICECON severity level. The field `Level` is a
`*int` in the source; `none` stands for the nil pointer. -/
structure Level where
  Level : Option ℤ
  Descriptor : String
  Description : String
  AllClear : Bool
  deriving DecidableEq, Repr

/-- The helper `intPtr`: a pointer to a fresh copy of the integer. -/
def intPtr (i : ℤ) : Option ℤ := some i

/-- The function `Calculate`: the JUICECON level of a dewpoint in Fahrenheit,
the `switch` of the source read top to bottom. -/
def Calculate (dewpointF : F64) : Level :=
  if F64.ge dewpointF (F64.ofNat 75) then
    { Level := intPtr 1
      Descriptor := "The Ultimate"
      Description := "A very rare event. This is not a drill."
      AllClear := false }
  else if F64.ge dewpointF (F64.ofNat 73) then
    { Level := intPtr 2
      Descriptor := "Come The Fuck On"
      Description := "Unacceptable. File complaints with the atmosphere."
      AllClear := false }
  else if F64.ge dewpointF (F64.ofNat 70) then
    { Level := intPtr 3
      Descriptor := "Unbearable"
      Description := "The air has weight. You are breathing soup."
      AllClear := false }
  else if F64.ge dewpointF (F64.ofNat 65) then
    { Level := intPtr 4
      Descriptor := "Miserable"
      Description := "Existence is damp. Consider relocation."
      AllClear := false }
  else if F64.ge dewpointF (F64.ofNat 60) then
    { Level := intPtr 5
      Descriptor := "Noticeable"
      Description := "A/C at night is now justified."
      AllClear := false }
  else
    { Level := none
      Descriptor := "Comfortable"
      Description := "JUICECON protocols not currently active."
      AllClear := true }

/-- Go's `strconv.Itoa`: the decimal text of an integer. -/
def Itoa (i : ℤ) : String := toString i

/-- The method `Level.LevelDisplay`. The result is `none` when the source
would dereference a nil `Level` pointer (a run-time panic). -/
def LevelDisplay (l : Level) : Option String :=
  if l.AllClear then some "ALL CLEAR"
  else
    match l.Level with
    | some n => some ("JUICECON " ++ Itoa n)
    | none => none

/-! ## `internal/weather/nws.go`: unit conversion -/

/-- The function `celsiusToFahrenheit`: `(c * 9 / 5) + 32` in `float64`
arithmetic, the multiplication first, then the division, then the sum. -/
def celsiusToFahrenheit (c : F64) : F64 :=
  F64.add (F64.div (F64.mul c (F64.ofNat 9)) (F64.ofNat 5)) (F64.ofNat 32)

/-- Whether a `float64` is finite: neither not-a-number nor an infinity. -/
def F64.isFinite : F64 → Bool
  | .fin _ => true
  | _ => false

/-- The exact affine transform of the specification, `c * 9 / 5 + 32` over
the rationals, brought to `float64` by a single rounding. -/
def affineRounded : F64 → F64
  | .fin q => F64.round (q * 9 / 5 + 32)
  | c => c

/-! ## Go errors, requests and responses -/

/-- Go `error` values as the source builds them: a plain message
(`fmt.Errorf` without `%w`, or an error of a library), or a message wrapping
a cause (`fmt.Errorf` with `%w`). -/
inductive GoError where
  | errorString (msg : String) : GoError
  | wrapError (msg : String) (cause : GoError) : GoError
  deriving DecidableEq

/-- The method `Error` of an error: its message. -/
def GoError.Error : GoError → String
  | .errorString msg => msg
  | .wrapError msg _ => msg

/-- The call `fmt.Errorf(pfx + "%w", err)`: the message is the text before
the verb followed by the message of the wrapped error. -/
def Errorf_w (pfx : String) (err : GoError) : GoError :=
  .wrapError (pfx ++ err.Error) err

/-- An `http.Request` as far as `makeRequest` sets it. -/
structure Request where
  Method : String
  URL : String
  Header : List (String × String)
  deriving DecidableEq

/-- The method `Header.Set`: the value replaces those held under the key. -/
def Request.HeaderSet (r : Request) (key value : String) : Request :=
  { r with Header := r.Header.filter (fun kv => kv.1 != key) ++ [(key, value)] }

/-- An `http.Response` as far as the source reads it; `β` is the type of bodies. -/
structure Response (β : Type) where
  StatusCode : ℤ
  Body : β

/-! ## `internal/weather/types.go` -/

/-- Go's `time.Time`: seconds and nanoseconds since January 1 of year 1,
00:00:00 UTC. -/
structure Time where
  sec : ℤ
  nsec : ℕ
  deriving DecidableEq

/-- The zero value `time.Time{}`. -/
def Time.zero : Time := ⟨0, 0⟩

/-- The struct `Observation`. -/
structure Observation where
  DewpointC : F64
  DewpointF : F64
  Timestamp : Time
  Station : String
  City : String
  State : String
  deriving DecidableEq

/-- The innermost struct of `NWSPointsResponse`: city and state. -/
structure RelativeLocationProperties where
  City : String
  State : String
  deriving DecidableEq

/-- The struct under `relativeLocation` of `NWSPointsResponse`. -/
structure RelativeLocation where
  Properties : RelativeLocationProperties
  deriving DecidableEq

/-- The struct under `properties` of `NWSPointsResponse`. -/
structure PointsProperties where
  RelativeLocation : RelativeLocation
  ObservationStations : String
  deriving DecidableEq

/-- The struct `NWSPointsResponse`. -/
structure NWSPointsResponse where
  Properties : PointsProperties
  deriving DecidableEq

/-- The struct under `properties` of an entry of `features`. -/
structure StationProperties where
  StationIdentifier : String
  deriving DecidableEq

/-- An entry of `features` in `NWSStationsResponse`. -/
structure StationFeature where
  Properties : StationProperties
  deriving DecidableEq

/-- The struct `NWSStationsResponse`. -/
structure NWSStationsResponse where
  Features : List StationFeature
  deriving DecidableEq

/-- The struct under `dewpoint` of `NWSObservationResponse`; `Value` is a
`*float64`, `none` standing for nil. -/
structure DewpointField where
  Value : Option F64
  UnitCode : String
  deriving DecidableEq

/-- The struct under `properties` of `NWSObservationResponse`. -/
structure ObservationProperties where
  Dewpoint : DewpointField
  Timestamp : String
  deriving DecidableEq

/-- The struct `NWSObservationResponse`. -/
structure NWSObservationResponse where
  Properties : ObservationProperties
  deriving DecidableEq

/-! ## `internal/weather/nws.go`: the pipeline -/

/-- The constant `nwsBaseURL`. -/
def nwsBaseURL : String := "https://api.weather.gov"

/-- The constant `userAgent`. -/
def userAgent : String := "(juicecon.app, contact@juicecon.app)"

/-- The library calls `GetObservation` depends on, over bodies of type `β`:
`fmt`'s verb `%.4f`, the failure of `http.NewRequest` on a URL (`none` when it
succeeds), `http.Client.Do` (given the requests sent before this one, so that
a remote side with memory is covered), `json.Decoder.Decode` into each of the
three response structs, and `time.Parse` with `time.RFC3339` (`none` when it
returns an error, in which case the time it returns is the zero `Time`). -/
structure Env (β : Type) where
  fmt4 : F64 → String
  urlError : String → Option GoError
  Do : List Request → Request → Except GoError (Response β)
  decodePoints : β → Except GoError NWSPointsResponse
  decodeStations : β → Except GoError NWSStationsResponse
  decodeObservation : β → Except GoError NWSObservationResponse
  timeParse : String → Option Time

/-- The call `http.NewRequest("GET", url, nil)`. -/
def NewRequest {β : Type} (env : Env β) (url : String) : Except GoError Request :=
  match env.urlError url with
  | some e => .error e
  | none => .ok { Method := "GET", URL := url, Header := [] }

/-- The request `makeRequest` hands to the client for a URL. -/
def requestFor (url : String) : Request :=
  (({ Method := "GET", URL := url, Header := [] } : Request).HeaderSet
    "User-Agent" userAgent).HeaderSet "Accept" "application/geo+json"

/-- The method `Client.makeRequest`. It returns its result together with the
requests sent so far, `sent` being those sent before the call. -/
def makeRequest {β : Type} (env : Env β) (sent : List Request) (url : String) :
    Except GoError (Response β) × List Request :=
  match NewRequest env url with
  | .error err => (.error err, sent)
  | .ok req0 =>
    let req := (req0.HeaderSet "User-Agent" userAgent).HeaderSet "Accept" "application/geo+json"
    match env.Do sent req with
    | .error err => (.error err, sent ++ [req])
    | .ok resp =>
      if resp.StatusCode ≠ 200 then
        (.error (.errorString ("API returned status " ++ Itoa resp.StatusCode)), sent ++ [req])
      else (.ok resp, sent ++ [req])

/-- The pair `(*Observation, error)` that `GetObservation` returns, and the
requests it sent, in order. -/
structure Outcome where
  obs : Option Observation
  err : Option GoError
  sent : List Request
  deriving DecidableEq

/-- The URL of the first request. -/
def pointsURL {β : Type} (env : Env β) (lat lon : F64) : String :=
  nwsBaseURL ++ "/points/" ++ env.fmt4 lat ++ "," ++ env.fmt4 lon

/-- The URL of the third request. -/
def obsURL (stationID : String) : String :=
  nwsBaseURL ++ "/stations/" ++ stationID ++ "/observations/latest"

/-- The method `Client.GetObservation`, statement by statement. -/
def GetObservation {β : Type} (env : Env β) (lat lon : F64) : Outcome :=
  match makeRequest env [] (pointsURL env lat lon) with
  | (.error err, s1) => ⟨none, some (Errorf_w "points lookup failed: " err), s1⟩
  | (.ok pointsResp, s1) =>
    match env.decodePoints pointsResp.Body with
    | .error err => ⟨none, some (Errorf_w "failed to decode points response: " err), s1⟩
    | .ok points =>
      match makeRequest env s1 points.Properties.ObservationStations with
      | (.error err, s2) => ⟨none, some (Errorf_w "stations lookup failed: " err), s2⟩
      | (.ok stationsResp, s2) =>
        match env.decodeStations stationsResp.Body with
        | .error err => ⟨none, some (Errorf_w "failed to decode stations response: " err), s2⟩
        | .ok stations =>
          match stations.Features with
          | [] => ⟨none, some (.errorString "no observation stations found"), s2⟩
          | first :: _ =>
            let stationID := first.Properties.StationIdentifier
            match makeRequest env s2 (obsURL stationID) with
            | (.error err, s3) => ⟨none, some (Errorf_w "observation lookup failed: " err), s3⟩
            | (.ok obsResp, s3) =>
              match env.decodeObservation obsResp.Body with
              | .error err =>
                ⟨none, some (Errorf_w "failed to decode observation response: " err), s3⟩
              | .ok obs =>
                match obs.Properties.Dewpoint.Value with
                | none => ⟨none, some (.errorString "dewpoint data not available"), s3⟩
                | some dewpointC =>
                  let dewpointF := celsiusToFahrenheit dewpointC
                  let timestamp := (env.timeParse obs.Properties.Timestamp).getD Time.zero
                  ⟨some { DewpointC := dewpointC
                          DewpointF := dewpointF
                          Timestamp := timestamp
                          Station := stationID
                          City := points.Properties.RelativeLocation.Properties.City
                          State := points.Properties.RelativeLocation.Properties.State },
                   none, s3⟩

/-! ## `encoding/json`: decoding a body into the three response structs -/

/-- A JSON value as the decoder reads it; a number carries the exact value of
its literal. -/
inductive Json where
  | null : Json
  | bool (b : Bool) : Json
  | num (q : ℚ) : Json
  | str (s : String) : Json
  | arr (items : List Json) : Json
  | obj (members : List (String × Json)) : Json

/-- The two ways `Decode` fails on a body: the bytes are not a JSON value, or
a JSON value does not fit the Go type it is decoded into. -/
inductive JsonError where
  | SyntaxError : JsonError
  | UnmarshalTypeError : JsonError
  deriving DecidableEq

/-- The error value of a decoding failure (the message of the library is
abbreviated). -/
def JsonError.toGo : JsonError → GoError
  | .SyntaxError => .errorString "json: invalid character in value"
  | .UnmarshalTypeError => .errorString "json: cannot unmarshal value into Go value"

/-- Decoding into a `string` that holds `cur`: a JSON string is stored, `null`
leaves the value as it is, any other value is a type error. -/
def decString (cur : String) : Json → Except JsonError String
  | .null => .ok cur
  | .str s => .ok s
  | _ => .error .UnmarshalTypeError

/-- Decoding into a `*float64`: `null` stores nil, a number is parsed by
`strconv.ParseFloat` (the nearest `float64`, an error when out of range), any
other value is a type error. -/
def decFloatPtr : Json → Except JsonError (Option F64)
  | .null => .ok none
  | .num q =>
    match F64.round q with
    | .fin r => .ok (some (.fin r))
    | _ => .error .UnmarshalTypeError
  | _ => .error .UnmarshalTypeError

/-- Decoding the members of a JSON object into a struct that holds `cur`:
the members are taken in order, each by the field its key selects (`none`
for a key that matches no field, which is skipped). -/
def decMembers {α : Type} (field : String → Option (α → Json → Except JsonError α)) :
    α → List (String × Json) → Except JsonError α
  | cur, [] => .ok cur
  | cur, (k, v) :: rest =>
    match field k with
    | none => decMembers field cur rest
    | some dec =>
      match dec cur v with
      | .error e => .error e
      | .ok next => decMembers field next rest

/-- Decoding into a struct that holds `cur`: an object is decoded member by
member, `null` leaves the struct as it is, any other value is a type error. -/
def decStruct {α : Type} (field : String → Option (α → Json → Except JsonError α))
    (cur : α) : Json → Except JsonError α
  | .null => .ok cur
  | .obj members => decMembers field cur members
  | _ => .error .UnmarshalTypeError

/-- Decoding the items of a JSON array into a slice that holds `cur`, in
order: the item at an index within `cur` is decoded into the element already
there, an item beyond it into a zero element. -/
def decItems {α : Type} (dec : α → Json → Except JsonError α) (zero : α) :
    List α → List Json → Except JsonError (List α)
  | _, [] => .ok []
  | cur, j :: rest =>
    match dec (cur.headD zero) j with
    | .error e => .error e
    | .ok a =>
      match decItems dec zero cur.tail rest with
      | .error e => .error e
      | .ok as => .ok (a :: as)

/-- Decoding into a slice that holds `cur`: `null` stores nil, an array
stores its items (the slice gets the length of the array), any other value
is a type error. -/
def decSlice {α : Type} (dec : α → Json → Except JsonError α) (zero : α) (cur : List α) :
    Json → Except JsonError (List α)
  | .null => .ok []
  | .arr items => decItems dec zero cur items
  | _ => .error .UnmarshalTypeError

section Decoders

variable (fold : String → String → Bool)

/-- The fields of the innermost struct of `NWSPointsResponse`, by JSON key;
`fold` is the key comparison of the library (equal, or equal up to case). -/
def relativeLocationPropertiesField (k : String) :
    Option (RelativeLocationProperties → Json → Except JsonError RelativeLocationProperties) :=
  if fold k "city" then some (fun c j => (decString c.City j).map (fun s => { c with City := s }))
  else if fold k "state" then
    some (fun c j => (decString c.State j).map (fun s => { c with State := s }))
  else none

/-- The field of the struct under `relativeLocation`, by JSON key. -/
def relativeLocationField (k : String) :
    Option (RelativeLocation → Json → Except JsonError RelativeLocation) :=
  if fold k "properties" then
    some (fun c j => (decStruct (relativeLocationPropertiesField fold) c.Properties j).map
      (fun p => { c with Properties := p }))
  else none

/-- The fields of the struct under `properties` of `NWSPointsResponse`, by JSON key. -/
def pointsPropertiesField (k : String) :
    Option (PointsProperties → Json → Except JsonError PointsProperties) :=
  if fold k "relativeLocation" then
    some (fun c j => (decStruct (relativeLocationField fold) c.RelativeLocation j).map
      (fun r => { c with RelativeLocation := r }))
  else if fold k "observationStations" then
    some (fun c j => (decString c.ObservationStations j).map
      (fun s => { c with ObservationStations := s }))
  else none

/-- The field of `NWSPointsResponse`, by JSON key. -/
def pointsField (k : String) :
    Option (NWSPointsResponse → Json → Except JsonError NWSPointsResponse) :=
  if fold k "properties" then
    some (fun c j => (decStruct (pointsPropertiesField fold) c.Properties j).map
      (fun p => { c with Properties := p }))
  else none

/-- The call `Decode(&points)` on a fresh `NWSPointsResponse`; the body is
`none` when its bytes are not a JSON value. -/
def jsonDecodePoints (body : Option Json) : Except JsonError NWSPointsResponse :=
  match body with
  | none => .error .SyntaxError
  | some j => decStruct (pointsField fold) ⟨⟨⟨⟨"", ""⟩⟩, ""⟩⟩ j

/-- The field of the struct under `properties` of a station, by JSON key. -/
def stationPropertiesField (k : String) :
    Option (StationProperties → Json → Except JsonError StationProperties) :=
  if fold k "stationIdentifier" then
    some (fun c j => (decString c.StationIdentifier j).map
      (fun s => { c with StationIdentifier := s }))
  else none

/-- The field of an entry of `features`, by JSON key. -/
def stationFeatureField (k : String) :
    Option (StationFeature → Json → Except JsonError StationFeature) :=
  if fold k "properties" then
    some (fun c j => (decStruct (stationPropertiesField fold) c.Properties j).map
      (fun p => { c with Properties := p }))
  else none

/-- The field of `NWSStationsResponse`, by JSON key. -/
def stationsField (k : String) :
    Option (NWSStationsResponse → Json → Except JsonError NWSStationsResponse) :=
  if fold k "features" then
    some (fun c j => (decSlice (decStruct (stationFeatureField fold)) ⟨⟨""⟩⟩ c.Features j).map
      (fun fs => { c with Features := fs }))
  else none

/-- The call `Decode(&stations)` on a fresh `NWSStationsResponse`. -/
def jsonDecodeStations (body : Option Json) : Except JsonError NWSStationsResponse :=
  match body with
  | none => .error .SyntaxError
  | some j => decStruct (stationsField fold) ⟨[]⟩ j

/-- The fields of the struct under `dewpoint`, by JSON key. -/
def dewpointField (k : String) :
    Option (DewpointField → Json → Except JsonError DewpointField) :=
  if fold k "value" then some (fun c j => (decFloatPtr j).map (fun v => { c with Value := v }))
  else if fold k "unitCode" then
    some (fun c j => (decString c.UnitCode j).map (fun s => { c with UnitCode := s }))
  else none

/-- The fields of the struct under `properties` of `NWSObservationResponse`, by JSON key. -/
def observationPropertiesField (k : String) :
    Option (ObservationProperties → Json → Except JsonError ObservationProperties) :=
  if fold k "dewpoint" then
    some (fun c j => (decStruct (dewpointField fold) c.Dewpoint j).map
      (fun d => { c with Dewpoint := d }))
  else if fold k "timestamp" then
    some (fun c j => (decString c.Timestamp j).map (fun s => { c with Timestamp := s }))
  else none

/-- The field of `NWSObservationResponse`, by JSON key. -/
def observationField (k : String) :
    Option (NWSObservationResponse → Json → Except JsonError NWSObservationResponse) :=
  if fold k "properties" then
    some (fun c j => (decStruct (observationPropertiesField fold) c.Properties j).map
      (fun p => { c with Properties := p }))
  else none

/-- The call `Decode(&obs)` on a fresh `NWSObservationResponse`. -/
def jsonDecodeObservation (body : Option Json) : Except JsonError NWSObservationResponse :=
  match body with
  | none => .error .SyntaxError
  | some j => decStruct (observationField fold) ⟨⟨⟨none, ""⟩, ""⟩⟩ j

end Decoders

/-- The environment whose bodies are JSON values (or bytes that are not
JSON) decoded as `encoding/json` does; the other library calls stay
parameters. -/
def jsonEnv (fold : String → String → Bool) (fmt4 : F64 → String)
    (urlError : String → Option GoError)
    (Do : List Request → Request → Except GoError (Response (Option Json)))
    (timeParse : String → Option Time) : Env (Option Json) where
  fmt4 := fmt4
  urlError := urlError
  Do := Do
  decodePoints := fun b => (jsonDecodePoints fold b).mapError JsonError.toGo
  decodeStations := fun b => (jsonDecodeStations fold b).mapError JsonError.toGo
  decodeObservation := fun b => (jsonDecodeObservation fold b).mapError JsonError.toGo
  timeParse := timeParse

/-! ## Runs of the pipeline -/

/-- The request for `url`, made after the requests `sent`, is created, sent
and answered with status 200 by the response `resp`. -/
def Answered {β : Type} (env : Env β) (sent : List Request) (url : String)
    (resp : Response β) : Prop :=
  env.urlError url = none ∧ env.Do sent (requestFor url) = .ok resp ∧ resp.StatusCode = 200

/-- Stage A succeeds: the points request is answered with status 200 and its
body decodes to `points`. -/
def StageA {β : Type} (env : Env β) (lat lon : F64) (points : NWSPointsResponse) : Prop :=
  ∃ resp, Answered env [] (pointsURL env lat lon) resp ∧
    env.decodePoints resp.Body = .ok points

/-- Stage B succeeds after stage A: the stations request is answered with
status 200 and its body decodes to `stations`. -/
def StageB {β : Type} (env : Env β) (lat lon : F64) (points : NWSPointsResponse)
    (stations : NWSStationsResponse) : Prop :=
  ∃ resp, Answered env [requestFor (pointsURL env lat lon)]
      points.Properties.ObservationStations resp ∧
    env.decodeStations resp.Body = .ok stations

/-- Stage C succeeds after stages A and B at the transport and decode level:
the observation request for `stationID` is answered with status 200 and its
body decodes to `obs`. -/
def StageC {β : Type} (env : Env β) (lat lon : F64) (points : NWSPointsResponse)
    (stationID : String) (obs : NWSObservationResponse) : Prop :=
  ∃ resp, Answered env
      [requestFor (pointsURL env lat lon), requestFor points.Properties.ObservationStations]
      (obsURL stationID) resp ∧
    env.decodeObservation resp.Body = .ok obs

/-! ## A scripted remote side, for concrete runs -/

/-- Equality of results is decidable when it is for errors and values. -/
instance instDecidableEqExcept {ε α : Type} [DecidableEq ε] [DecidableEq α] :
    DecidableEq (Except ε α)
  | .error a, .error b => if h : a = b then isTrue (by rw [h]) else isFalse (by simpa using h)
  | .ok a, .ok b => if h : a = b then isTrue (by rw [h]) else isFalse (by simpa using h)
  | .error _, .ok _ => isFalse (by simp)
  | .ok _, .error _ => isFalse (by simp)

/-- Simple case folding of a rune, as far as it can reach an ASCII letter:
the capital letters, the long s (U+017F, folded onto `s`) and the Kelvin sign
(U+212A, folded onto `k`); every other rune is left as it is. -/
def foldRune (c : Char) : Char :=
  if c = Char.ofNat 0x17F then 's'
  else if c = Char.ofNat 0x212A then 'k'
  else c.toLower

/-- The key comparison of `encoding/json` against a field name written in
ASCII letters, as those of the three response structs are: equality up to
simple case folding. -/
def keyFold (a b : String) : Bool := a.data.map foldRune == b.data.map foldRune

/-- A client whose first, second and later calls to `Do` return `a`, `b` and `c`. -/
def scriptedDo {β : Type} (a b c : Except GoError (Response β)) (sent : List Request)
    (_req : Request) : Except GoError (Response β) :=
  match sent.length with
  | 0 => a
  | 1 => b
  | _ => c

/-- The text of `%.4f` for the two coordinates of the concrete runs. -/
def mockFmt4 : F64 → String
  | .fin q => if q.num < 0 then "-74.0000" else "40.7500"
  | _ => "NaN"

/-- A time parser that accepts one timestamp only. -/
def mockTimeParse (s : String) : Option Time :=
  if s = "2024-07-15T18:51:00+00:00" then some ⟨63856666260, 0⟩ else none

/-- The environment of the concrete runs: JSON bodies, every URL accepted. -/
def mockEnv (a b c : Except GoError (Response (Option Json))) : Env (Option Json) :=
  jsonEnv keyFold mockFmt4 (fun _ => none) (scriptedDo a b c) mockTimeParse

/-- A stage-A body: New York, NY, and the reference to the station list. -/
def pointsBody : Json :=
  .obj [("properties", .obj
    [("relativeLocation", .obj [("properties", .obj [("city", .str "New York"),
        ("state", .str "NY")])]),
      ("observationStations", .str "https://api.weather.gov/gridpoints/OKX/33,35/stations")])]

/-- The struct that `pointsBody` decodes to. -/
def pointsNY : NWSPointsResponse :=
  ⟨⟨⟨⟨"New York", "NY"⟩⟩, "https://api.weather.gov/gridpoints/OKX/33,35/stations"⟩⟩

/-- A stage-B body with two stations, KNYC first. -/
def stationsBody : Json :=
  .obj [("features", .arr
    [.obj [("properties", .obj [("stationIdentifier", .str "KNYC")])],
      .obj [("properties", .obj [("stationIdentifier", .str "KLGA")])]])]

/-- A stage-C body with the given dewpoint value and timestamp. -/
def obsBody (value : Json) (timestamp : String) : Json :=
  .obj [("properties", .obj
    [("timestamp", .str timestamp),
      ("dewpoint", .obj [("unitCode", .str "wmoUnit:degC"), ("value", value)])])]

/-- The `float64` nearest to 21.1. -/
def dewpoint21_1 : F64 := .fin (2969561004297421 / 140737488355328)

/-- The struct that `stationsBody` decodes to. -/
def stationsNY : NWSStationsResponse := ⟨[⟨⟨"KNYC"⟩⟩, ⟨⟨"KLGA"⟩⟩]⟩

/-- The latitude 40.75 and the longitude -74 of the concrete runs. -/
def latNY : F64 := .fin (163 / 4)

/-- The longitude of the concrete runs. -/
def lonNY : F64 := .fin (-74)

/-- A remote side whose three stages answer with status 200: New York, the
stations KNYC and KLGA, and an observation with the given dewpoint value and
timestamp. -/
def envNewYork (value : Json) (timestamp : String) : Env (Option Json) :=
  mockEnv (.ok ⟨200, some pointsBody⟩) (.ok ⟨200, some stationsBody⟩)
    (.ok ⟨200, some (obsBody value timestamp)⟩)

/-- A remote side that answers the points request with status 404. -/
def envNotFound : Env (Option Json) :=
  mockEnv (.ok ⟨404, none⟩) (.ok ⟨200, some stationsBody⟩)
    (.error (.errorString "connection refused"))

/-- A remote side whose station list is empty. -/
def envNoStations : Env (Option Json) :=
  mockEnv (.ok ⟨200, some pointsBody⟩) (.ok ⟨200, some (.obj [("features", .arr [])])⟩)
    (.error (.errorString "connection refused"))

/-- A remote side whose points body is not JSON. -/
def envBadPoints : Env (Option Json) :=
  mockEnv (.ok ⟨200, none⟩) (.ok ⟨200, some stationsBody⟩)
    (.error (.errorString "connection refused"))

/-- A remote side whose points body is the empty JSON object; the client
then has no scheme to send the second request with. -/
def envEmptyObject : Env (Option Json) :=
  mockEnv (.ok ⟨200, some (.obj [])⟩) (.error (.errorString "unsupported protocol scheme"))
    (.error (.errorString "connection refused"))

/-! ## The decision table of the classification, as the specification words it -/

/-- The last row of the decision table: the comfortable baseline. -/
def comfortable : Level :=
  { Level := none
    Descriptor := "Comfortable"
    Description := "JUICECON protocols not currently active."
    AllClear := true }

/-- The decision table of the specification: thresholds in descending order,
each with the row it selects (ordinal, descriptor, long description, all-clear). -/
def decisionTable : List (ℕ × Level) :=
  [ (75, ⟨some 1, "The Ultimate", "A very rare event. This is not a drill.", false⟩),
    (73, ⟨some 2, "Come The Fuck On", "Unacceptable. File complaints with the atmosphere.", false⟩),
    (70, ⟨some 3, "Unbearable", "The air has weight. You are breathing soup.", false⟩),
    (65, ⟨some 4, "Miserable", "Existence is damp. Consider relocation.", false⟩),
    (60, ⟨some 5, "Noticeable", "A/C at night is now justified.", false⟩) ]

/-- The row selected by the first threshold of a table that the dewpoint
meets (`dewpointF >= threshold`), the comfortable row when it meets none. -/
def firstThresholdMet (dewpointF : F64) : List (ℕ × Level) → Level
  | [] => comfortable
  | (t, row) :: rest =>
    if F64.ge dewpointF (F64.ofNat t) then row else firstThresholdMet dewpointF rest

/-! ## `float64` rounding: every `float64` value rounds to itself -/

namespace F64

theorem pow2_eq_zpow (e : ℤ) : pow2 e = (2 : ℚ) ^ e := by
  unfold pow2
  split_ifs with h
  · conv_rhs => rw [← Int.toNat_of_nonneg h]
    rw [zpow_natCast]
  · have h' : 0 ≤ -e := by omega
    have : e = -((-e).toNat : ℤ) := by rw [Int.toNat_of_nonneg h']; ring
    conv_rhs => rw [this]
    rw [zpow_neg, zpow_natCast, one_div]

theorem pow2_pos (e : ℤ) : 0 < pow2 e := by
  rw [pow2_eq_zpow]; positivity

theorem pow2_add (a b : ℤ) : pow2 (a + b) = pow2 a * pow2 b := by
  simp only [pow2_eq_zpow]
  exact zpow_add₀ (by norm_num) a b

theorem pow2_lt_iff (a b : ℤ) : pow2 a < pow2 b ↔ a < b := by
  simp only [pow2_eq_zpow]
  exact zpow_lt_zpow_iff_right₀ (by norm_num)

theorem pow2_le_iff (a b : ℤ) : pow2 a ≤ pow2 b ↔ a ≤ b := by
  simp only [pow2_eq_zpow]
  exact zpow_le_zpow_iff_right₀ (by norm_num)

theorem log2Aux_spec (fuel n : ℕ) (hn : 1 ≤ n) (hf : n ≤ fuel) :
    2 ^ log2Aux fuel n ≤ n ∧ n < 2 ^ (log2Aux fuel n + 1) := by
  induction fuel generalizing n with
  | zero => omega
  | succ fuel ih =>
    unfold log2Aux
    split_ifs with h
    · constructor <;> simp <;> omega
    · have h2 : 1 ≤ n / 2 := by omega
      have h3 : n / 2 ≤ fuel := by omega
      obtain ⟨ih1, ih2⟩ := ih (n / 2) h2 h3
      constructor
      · rw [pow_succ]; omega
      · rw [pow_succ]; omega


theorem ilog2_le (a : ℚ) (ha : 0 < a) : pow2 (ilog2 a) ≤ a := by
  unfold ilog2
  simp only
  split_ifs with h
  · exact h
  · have hnum : 0 < a.num := Rat.num_pos.mpr ha
    have hn1 : 1 ≤ a.num.natAbs := by omega
    have hd1 : 1 ≤ a.den := a.den_pos
    obtain ⟨hx, _⟩ := log2Aux_spec a.num.natAbs a.num.natAbs hn1 le_rfl
    obtain ⟨_, hy⟩ := log2Aux_spec a.den a.den hd1 le_rfl
    set x := log2Aux a.num.natAbs a.num.natAbs
    set y := log2Aux a.den a.den
    have e1 : ((x : ℤ) - (y : ℤ) - 1) = (x : ℤ) + -((y : ℤ) + 1) := by ring
    rw [pow2_eq_zpow, e1, zpow_add₀ (by norm_num), zpow_neg]
    have hxq : ((2 : ℚ) ^ (x : ℤ)) ≤ (a.num.natAbs : ℚ) := by
      rw [zpow_natCast]; exact_mod_cast hx
    have hyq : (a.den : ℚ) ≤ (2 : ℚ) ^ ((y : ℤ) + 1) := by
      have : (a.den : ℚ) ≤ ((2 ^ (y + 1) : ℕ) : ℚ) := by exact_mod_cast hy.le
      rw [show ((y : ℤ) + 1) = ((y + 1 : ℕ) : ℤ) by push_cast; ring, zpow_natCast]
      exact_mod_cast this
    have hden : (0 : ℚ) < a.den := by exact_mod_cast a.den_pos
    have ha' : a = (a.num.natAbs : ℚ) / (a.den : ℚ) := by
      have h2 : (a.num.natAbs : ℚ) = (a.num : ℚ) := by
        rw [Nat.cast_natAbs, abs_of_pos hnum]
      rw [h2]
      exact (Rat.num_div_den a).symm
    rw [← div_eq_mul_inv]
    conv_rhs => rw [ha']
    exact div_le_div₀ (by positivity) hxq hden hyq

theorem roundHalfEven_intCast (n : ℤ) : roundHalfEven (n : ℚ) = n := by
  have hf : (n : ℚ).floor = n := by
    show ⌊(n : ℚ)⌋ = n
    exact Int.floor_intCast n
  unfold roundHalfEven
  simp [hf]

theorem round_of_dyadic (m k : ℤ) (hm : |m| < 2 ^ 53) (hk : -1074 ≤ k) (hk2 : k ≤ 971) :
    round ((m : ℚ) * pow2 k) = fin ((m : ℚ) * pow2 k) := by
  by_cases hm0 : m = 0
  · subst hm0
    simp [round]
  have hq0 : (m : ℚ) * pow2 k ≠ 0 := by
    have := pow2_pos k
    have hmq : (m : ℚ) ≠ 0 := by exact_mod_cast hm0
    positivity
  have habs : |(m : ℚ) * pow2 k| = |(m : ℚ)| * pow2 k := by
    rw [abs_mul, abs_of_pos (pow2_pos k)]
  have hapos : 0 < |(m : ℚ) * pow2 k| := abs_pos.mpr hq0
  have hmq : |(m : ℚ)| < 2 ^ 53 := by
    have : ((|m| : ℤ) : ℚ) < ((2 ^ 53 : ℤ) : ℚ) := by exact_mod_cast hm
    simpa [Int.cast_abs] using this
  have hlt : |(m : ℚ) * pow2 k| < pow2 (53 + k) := by
    rw [habs, pow2_add]
    have h53 : pow2 53 = 2 ^ 53 := by rw [pow2_eq_zpow]; norm_cast
    rw [h53]
    exact mul_lt_mul_of_pos_right hmq (pow2_pos k)
  have he0 : ilog2 |(m : ℚ) * pow2 k| ≤ 52 + k := by
    have h1 := ilog2_le _ hapos
    have h2 := lt_of_le_of_lt h1 hlt
    rw [pow2_lt_iff] at h2
    omega
  unfold round
  rw [if_neg hq0]
  simp only
  set e := max (ilog2 |(m : ℚ) * pow2 k|) (-1022) with he
  have hek : e - 52 ≤ k := by
    have : e ≤ 52 + k := max_le he0 (by omega)
    omega
  obtain ⟨j, hj⟩ : ∃ j : ℕ, k = (e - 52) + j := ⟨(k - (e - 52)).toNat, by omega⟩
  have hdiv : (m : ℚ) * pow2 k / pow2 (e - 52) = ((m * 2 ^ j : ℤ) : ℚ) := by
    rw [hj, pow2_add, pow2_eq_zpow (j : ℤ), zpow_natCast]
    have := (pow2_pos (e - 52)).ne'
    field_simp
    ring
  rw [hdiv, roundHalfEven_intCast]
  have hr : ((m * 2 ^ j : ℤ) : ℚ) * pow2 (e - 52) = (m : ℚ) * pow2 k := by
    rw [← hdiv]
    have := (pow2_pos (e - 52)).ne'
    field_simp
  rw [hr]
  have hno : ¬ pow2 1024 ≤ |(m : ℚ) * pow2 k| := by
    have h1 : pow2 (53 + k) ≤ pow2 1024 := (pow2_le_iff _ _).mpr (by omega)
    exact not_le.mpr (lt_of_lt_of_le hlt h1)
  rw [if_neg hno]

theorem roundHalfEven_err (y : ℚ) : |(roundHalfEven y : ℚ) - y| ≤ 1 / 2 := by
  have h1 : ((y.floor : ℤ) : ℚ) ≤ y := by
    show ((⌊y⌋ : ℤ) : ℚ) ≤ y
    exact Int.floor_le y
  have h2 : y < ((y.floor : ℤ) : ℚ) + 1 := by
    show y < ((⌊y⌋ : ℤ) : ℚ) + 1
    exact Int.lt_floor_add_one y
  unfold roundHalfEven
  simp only
  rw [abs_le]
  split_ifs with c1 c2 c3
  · constructor <;> linarith
  · push_cast; constructor <;> linarith
  · constructor <;> linarith
  · push_cast; constructor <;> linarith

set_option maxRecDepth 4000 in
theorem round_cases (x : ℚ) :
    (∃ r : ℚ, round x = fin r ∧ |r - x| ≤ |x| / 2 ^ 53 + 1 / 2 ^ 1075 ∧ |r| < 2 ^ 1024) ∨
    (round x = inf (decide (x < 0)) ∧ 2 ^ 1023 < |x|) := by
  by_cases hx0 : x = 0
  · subst hx0
    left
    refine ⟨0, by simp [round], ?_, by simp⟩
    simp only [sub_zero, abs_zero, zero_div, zero_add]
    positivity
  have hapos : 0 < |x| := abs_pos.mpr hx0
  unfold round
  rw [if_neg hx0]
  simp only
  set e := max (ilog2 |x|) (-1022) with he
  set ulp := pow2 (e - 52) with hulp
  have hulp_pos : 0 < ulp := pow2_pos _
  set n := roundHalfEven (x / ulp) with hn
  have herr : |(n : ℚ) * ulp - x| ≤ ulp / 2 := by
    have h := roundHalfEven_err (x / ulp)
    have e1 : (n : ℚ) * ulp - x = ((n : ℚ) - x / ulp) * ulp := by field_simp
    rw [e1, abs_mul, abs_of_pos hulp_pos]
    calc |(n : ℚ) - x / ulp| * ulp ≤ 1 / 2 * ulp := by
          exact mul_le_mul_of_nonneg_right h hulp_pos.le
      _ = ulp / 2 := by ring
  have hhalf : ulp / 2 ≤ |x| / 2 ^ 53 + 1 / 2 ^ 1075 := by
    have e53 : ulp / 2 = pow2 (e - 53) := by
      rw [hulp, show e - 52 = (e - 53) + 1 by ring, pow2_add]
      have : pow2 1 = 2 := by rw [pow2_eq_zpow]; norm_num
      rw [this]; ring
    rw [e53]
    rcases le_total (ilog2 |x|) (-1022) with hc | hc
    · have : e = -1022 := by rw [he]; exact max_eq_right hc
      rw [this]
      have e2 : pow2 (-1022 - 53) = 1 / 2 ^ 1075 := by
        rw [pow2_eq_zpow, show (-1022 - 53 : ℤ) = -((1075 : ℕ) : ℤ) by norm_num, zpow_neg,
          zpow_natCast, one_div]
      rw [e2]
      have : 0 ≤ |x| / 2 ^ 53 := div_nonneg (abs_nonneg x) (pow_nonneg (by norm_num) 53)
      linarith
    · have : e = ilog2 |x| := by rw [he]; exact max_eq_left hc
      rw [this, show ilog2 |x| - 53 = ilog2 |x| + (-53) by ring, pow2_add]
      have e2 : pow2 (-53) = 1 / 2 ^ 53 := by
        rw [pow2_eq_zpow, show (-53 : ℤ) = -((53 : ℕ) : ℤ) by norm_num, zpow_neg,
          zpow_natCast, one_div]
      rw [e2]
      have h1 := ilog2_le _ hapos
      have : pow2 (ilog2 |x|) * (1 / 2 ^ 53) ≤ |x| / 2 ^ 53 := by
        rw [mul_one_div]
        exact div_le_div_of_nonneg_right h1 (by positivity)
      have : (0 : ℚ) ≤ 1 / 2 ^ 1075 := div_nonneg zero_le_one (pow_nonneg (by norm_num) 1075)
      linarith
  have h2 : pow2 1024 = 2 ^ 1024 := by rw [pow2_eq_zpow]; exact zpow_ofNat 2 1024
  by_cases hfin : pow2 1024 ≤ |(n : ℚ) * ulp|
  · right
    rw [if_pos hfin]
    refine ⟨rfl, ?_⟩
    rw [h2] at hfin
    have h1 : |(n : ℚ) * ulp| ≤ |x| + |(n : ℚ) * ulp - x| := by
      have := abs_add ((n : ℚ) * ulp - x) x
      simp only [sub_add_cancel] at this
      linarith
    have h3 : |x| / 2 ^ 53 ≤ |x| / 2 := by
      apply div_le_div_of_nonneg_left hapos.le (by norm_num)
      exact le_self_pow₀ (by norm_num) (by norm_num)
    have h5 : (1 : ℚ) / 2 ^ 1075 ≤ 1 := by
      rw [div_le_one (by positivity)]
      exact one_le_pow₀ (by norm_num)
    have h6 : (2 : ℚ) ^ 1024 = 2 ^ 1000 * 16777216 := by
      rw [show (1024 : ℕ) = 1000 + 24 by norm_num, pow_add]; norm_num
    have h7 : (2 : ℚ) ^ 1023 = 2 ^ 1000 * 8388608 := by
      rw [show (1023 : ℕ) = 1000 + 23 by norm_num, pow_add]; norm_num
    have h8 : (1 : ℚ) ≤ 2 ^ 1000 := one_le_pow₀ (by norm_num)
    rw [h6] at hfin
    rw [h7]
    generalize (2 : ℚ) ^ 1000 = B at hfin h8 ⊢
    by_contra hc
    rw [not_lt] at hc
    linarith
  · left
    rw [if_neg hfin]
    rw [h2, not_le] at hfin
    exact ⟨(n : ℚ) * ulp, rfl, le_trans herr hhalf, hfin⟩

theorem round_err (x : ℚ) (hx : |x| ≤ 2 ^ 1023) :
    ∃ r : ℚ, round x = fin r ∧ |r - x| ≤ |x| / 2 ^ 53 + 1 / 2 ^ 1075 := by
  rcases round_cases x with ⟨r, h1, h2, _⟩ | ⟨_, h⟩
  · exact ⟨r, h1, h2⟩
  · exact absurd hx (not_le.mpr h)

end F64

theorem F64.round_of_int (n : ℤ) (hn : |n| < 2 ^ 53) : F64.round (n : ℚ) = .fin (n : ℚ) := by
  have h := F64.round_of_dyadic n 0 hn (by norm_num) (by norm_num)
  have h1 : F64.pow2 0 = 1 := by rw [F64.pow2_eq_zpow]; norm_num
  rwa [h1, mul_one] at h

/-! ## Comparison lemmas -/

theorem F64.lt_ofNat_imp_not_ge (d : F64) (n : ℕ) (h : F64.lt d (F64.ofNat n) = true) :
    F64.ge d (F64.ofNat n) = false := by
  cases d with
  | nan => rfl
  | inf s => cases s <;> simp_all [F64.lt, F64.ge, F64.ofNat]
  | fin q => simp_all [F64.lt, F64.ge, F64.ofNat]

theorem F64.ge_ofNat_mono (d : F64) (m n : ℕ) (hmn : m ≤ n)
    (h : F64.ge d (F64.ofNat n) = true) : F64.ge d (F64.ofNat m) = true := by
  cases d with
  | nan => simp [F64.ge] at h
  | inf s => cases s <;> simp_all [F64.ge, F64.ofNat]
  | fin q =>
    simp only [F64.ge, F64.ofNat, decide_eq_true_eq] at h ⊢
    have : (m : ℚ) ≤ n := by exact_mod_cast hmn
    linarith

/-! ## Classification: `Calculate` and `LevelDisplay` -/

/-- C1: for every dewpoint, `Calculate` returns the row of the decision table
selected by the first threshold met in descending order; so ordinal 1 and
"The Ultimate" from 75 on, ordinal 2 in [73, 75), ordinal 3 in [70, 73),
ordinal 4 in [65, 70), ordinal 5 in [60, 65), and no ordinal and "Comfortable"
below 60; exactly 75 gives ordinal 1, exactly 73 ordinal 2, exactly 60 ordinal 5. -/
theorem Calculate_decision_table (dewpointF : F64) :
    Calculate dewpointF = firstThresholdMet dewpointF decisionTable ∧
    (F64.ge dewpointF (F64.ofNat 75) = true →
      (Calculate dewpointF).Level = some 1 ∧ (Calculate dewpointF).Descriptor = "The Ultimate") ∧
    (F64.ge dewpointF (F64.ofNat 73) = true → F64.lt dewpointF (F64.ofNat 75) = true →
      (Calculate dewpointF).Level = some 2 ∧
        (Calculate dewpointF).Descriptor = "Come The Fuck On") ∧
    (F64.ge dewpointF (F64.ofNat 70) = true → F64.lt dewpointF (F64.ofNat 73) = true →
      (Calculate dewpointF).Level = some 3 ∧ (Calculate dewpointF).Descriptor = "Unbearable") ∧
    (F64.ge dewpointF (F64.ofNat 65) = true → F64.lt dewpointF (F64.ofNat 70) = true →
      (Calculate dewpointF).Level = some 4 ∧ (Calculate dewpointF).Descriptor = "Miserable") ∧
    (F64.ge dewpointF (F64.ofNat 60) = true → F64.lt dewpointF (F64.ofNat 65) = true →
      (Calculate dewpointF).Level = some 5 ∧ (Calculate dewpointF).Descriptor = "Noticeable") ∧
    (F64.lt dewpointF (F64.ofNat 60) = true →
      (Calculate dewpointF).Level = none ∧ (Calculate dewpointF).Descriptor = "Comfortable") ∧
    (Calculate (F64.ofNat 75)).Level = some 1 ∧
    (Calculate (F64.ofNat 73)).Level = some 2 ∧
    (Calculate (F64.ofNat 60)).Level = some 5 := by
  refine ⟨?_, ?_, ?_, ?_, ?_, ?_, ?_, ?_, ?_, ?_⟩
  · simp only [Calculate, firstThresholdMet, decisionTable, comfortable, intPtr]
  · intro h
    simp [Calculate, h, intPtr]
  · intro h hlt
    simp [Calculate, h, F64.lt_ofNat_imp_not_ge _ _ hlt, intPtr]
  · intro h hlt
    have h73 := F64.lt_ofNat_imp_not_ge _ _ hlt
    have h75 : F64.ge dewpointF (F64.ofNat 75) = false := by
      by_contra hc
      have := F64.ge_ofNat_mono dewpointF 73 75 (by norm_num) (by simpa using hc)
      simp [h73] at this
    simp [Calculate, h, h73, h75, intPtr]
  · intro h hlt
    have h70 := F64.lt_ofNat_imp_not_ge _ _ hlt
    have h73 : F64.ge dewpointF (F64.ofNat 73) = false := by
      by_contra hc
      have := F64.ge_ofNat_mono dewpointF 70 73 (by norm_num) (by simpa using hc)
      simp [h70] at this
    have h75 : F64.ge dewpointF (F64.ofNat 75) = false := by
      by_contra hc
      have := F64.ge_ofNat_mono dewpointF 70 75 (by norm_num) (by simpa using hc)
      simp [h70] at this
    simp [Calculate, h, h70, h73, h75, intPtr]
  · intro h hlt
    have h65 := F64.lt_ofNat_imp_not_ge _ _ hlt
    have h70 : F64.ge dewpointF (F64.ofNat 70) = false := by
      by_contra hc
      have := F64.ge_ofNat_mono dewpointF 65 70 (by norm_num) (by simpa using hc)
      simp [h65] at this
    have h73 : F64.ge dewpointF (F64.ofNat 73) = false := by
      by_contra hc
      have := F64.ge_ofNat_mono dewpointF 65 73 (by norm_num) (by simpa using hc)
      simp [h65] at this
    have h75 : F64.ge dewpointF (F64.ofNat 75) = false := by
      by_contra hc
      have := F64.ge_ofNat_mono dewpointF 65 75 (by norm_num) (by simpa using hc)
      simp [h65] at this
    simp [Calculate, h, h65, h70, h73, h75, intPtr]
  · intro hlt
    have h60 := F64.lt_ofNat_imp_not_ge _ _ hlt
    have hno : ∀ n : ℕ, 60 ≤ n → F64.ge dewpointF (F64.ofNat n) = false := by
      intro n hn
      by_contra hc
      have := F64.ge_ofNat_mono dewpointF 60 n hn (by simpa using hc)
      simp [h60] at this
    simp [Calculate, h60, hno 65 (by norm_num), hno 70 (by norm_num), hno 73 (by norm_num),
      hno 75 (by norm_num)]
  · simp [Calculate, F64.ge, F64.ofNat, intPtr]
  · simp [Calculate, F64.ge, F64.ofNat, intPtr]
    norm_num
  · simp [Calculate, F64.ge, F64.ofNat, intPtr]
    norm_num

/-- C1, at the dewpoint 74: the second row is selected. -/
theorem Calculate_decision_table_witness :
    (Calculate (F64.fin 74)).Level = some 2 ∧
      (Calculate (F64.fin 74)).Descriptor = "Come The Fuck On" :=
  (Calculate_decision_table (F64.fin 74)).2.2.1
    (by simp [F64.ge, F64.ofNat]; norm_num) (by simp [F64.lt, F64.ofNat]; norm_num)

/-- C8: for every dewpoint, the level returned by `Calculate` has `AllClear`
true exactly when its ordinal is absent, which happens exactly when the
dewpoint is not `>= 60`; from 60 on the ordinal is present, lies in 1..5 and
`AllClear` is false. -/
theorem Calculate_allClear_iff (dewpointF : F64) :
    ((Calculate dewpointF).AllClear = true ↔ (Calculate dewpointF).Level = none) ∧
    ((Calculate dewpointF).Level = none ↔ ¬ F64.ge dewpointF (F64.ofNat 60) = true) ∧
    (F64.ge dewpointF (F64.ofNat 60) = true →
      ∃ n : ℤ, (Calculate dewpointF).Level = some n ∧ 1 ≤ n ∧ n ≤ 5 ∧
        (Calculate dewpointF).AllClear = false) := by
  have mono : ∀ n : ℕ, 60 ≤ n → F64.ge dewpointF (F64.ofNat n) = true →
      F64.ge dewpointF (F64.ofNat 60) = true :=
    fun n hn h => F64.ge_ofNat_mono dewpointF 60 n hn h
  by_cases h75 : F64.ge dewpointF (F64.ofNat 75) = true
  · have h60 := mono 75 (by norm_num) h75
    simp [Calculate, h75, h60, intPtr]
  by_cases h73 : F64.ge dewpointF (F64.ofNat 73) = true
  · have h60 := mono 73 (by norm_num) h73
    simp [Calculate, h75, h73, h60, intPtr]
  by_cases h70 : F64.ge dewpointF (F64.ofNat 70) = true
  · have h60 := mono 70 (by norm_num) h70
    simp [Calculate, h75, h73, h70, h60, intPtr]
  by_cases h65 : F64.ge dewpointF (F64.ofNat 65) = true
  · have h60 := mono 65 (by norm_num) h65
    simp [Calculate, h75, h73, h70, h65, h60, intPtr]
  by_cases h60 : F64.ge dewpointF (F64.ofNat 60) = true
  · simp [Calculate, h75, h73, h70, h65, h60, intPtr]
  · simp [Calculate, h75, h73, h70, h65, h60]

/-- C8, at the dewpoint 66: the ordinal is present and `AllClear` is false. -/
theorem Calculate_allClear_iff_witness :
    ∃ n : ℤ, (Calculate (F64.fin 66)).Level = some n ∧ 1 ≤ n ∧ n ≤ 5 ∧
      (Calculate (F64.fin 66)).AllClear = false :=
  (Calculate_allClear_iff (F64.fin 66)).2.2 (by simp [F64.ge, F64.ofNat]; norm_num)

/-- C9, as stated, fails at not-a-number: it is not below 60, yet the display
label is "ALL CLEAR" and none of "JUICECON 1" to "JUICECON 5". -/
theorem LevelDisplay_nan_counterexample :
    F64.lt F64.nan (F64.ofNat 60) = false ∧
    LevelDisplay (Calculate F64.nan) = some "ALL CLEAR" ∧
    ∀ n : ℤ, LevelDisplay (Calculate F64.nan) ≠ some ("JUICECON " ++ Itoa n) := by
  refine ⟨rfl, by decide, ?_⟩
  intro n h
  have h1 : LevelDisplay (Calculate F64.nan) = some "ALL CLEAR" := by decide
  rw [h1] at h
  have h2 := congrArg (fun o : Option String => o.map (fun t => t.data.head?)) h
  simp at h2

/-- C9, amended: for every dewpoint, `LevelDisplay` applied to
`Calculate dewpointF` returns without dereferencing an absent ordinal; the
label is "ALL CLEAR" when the dewpoint is not `>= 60` (below 60, or
not-a-number), and otherwise "JUICECON", a space and the decimal ordinal,
one of "JUICECON 1" to "JUICECON 5". -/
theorem LevelDisplay_Calculate (dewpointF : F64) :
    (∃ label, LevelDisplay (Calculate dewpointF) = some label) ∧
    (¬ F64.ge dewpointF (F64.ofNat 60) = true →
      LevelDisplay (Calculate dewpointF) = some "ALL CLEAR") ∧
    (F64.lt dewpointF (F64.ofNat 60) = true →
      LevelDisplay (Calculate dewpointF) = some "ALL CLEAR") ∧
    (F64.ge dewpointF (F64.ofNat 60) = true →
      ∃ n : ℤ, (Calculate dewpointF).Level = some n ∧ 1 ≤ n ∧ n ≤ 5 ∧
        LevelDisplay (Calculate dewpointF) = some ("JUICECON " ++ Itoa n) ∧
        LevelDisplay (Calculate dewpointF) ∈
          [some "JUICECON 1", some "JUICECON 2", some "JUICECON 3", some "JUICECON 4",
            some "JUICECON 5"]) := by
  have mono : ∀ n : ℕ, 60 ≤ n → F64.ge dewpointF (F64.ofNat n) = true →
      F64.ge dewpointF (F64.ofNat 60) = true :=
    fun n hn h => F64.ge_ofNat_mono dewpointF 60 n hn h
  have hlt : F64.ge dewpointF (F64.ofNat 60) = true → F64.lt dewpointF (F64.ofNat 60) = false := by
    intro h
    by_contra hc
    have := F64.lt_ofNat_imp_not_ge dewpointF 60 (by simpa using hc)
    simp [h] at this
  have e1 : "JUICECON " ++ Itoa 1 = "JUICECON 1" := by decide
  have e2 : "JUICECON " ++ Itoa 2 = "JUICECON 2" := by decide
  have e3 : "JUICECON " ++ Itoa 3 = "JUICECON 3" := by decide
  have e4 : "JUICECON " ++ Itoa 4 = "JUICECON 4" := by decide
  have e5 : "JUICECON " ++ Itoa 5 = "JUICECON 5" := by decide
  by_cases h75 : F64.ge dewpointF (F64.ofNat 75) = true
  · have h60 := mono 75 (by norm_num) h75
    simp [Calculate, LevelDisplay, h75, h60, intPtr, hlt h60, e1]
  by_cases h73 : F64.ge dewpointF (F64.ofNat 73) = true
  · have h60 := mono 73 (by norm_num) h73
    simp [Calculate, LevelDisplay, h75, h73, h60, intPtr, hlt h60, e2]
  by_cases h70 : F64.ge dewpointF (F64.ofNat 70) = true
  · have h60 := mono 70 (by norm_num) h70
    simp [Calculate, LevelDisplay, h75, h73, h70, h60, intPtr, hlt h60, e3]
  by_cases h65 : F64.ge dewpointF (F64.ofNat 65) = true
  · have h60 := mono 65 (by norm_num) h65
    simp [Calculate, LevelDisplay, h75, h73, h70, h65, h60, intPtr, hlt h60, e4]
  by_cases h60 : F64.ge dewpointF (F64.ofNat 60) = true
  · simp [Calculate, LevelDisplay, h75, h73, h70, h65, h60, intPtr, hlt h60, e5]
  · simp [Calculate, LevelDisplay, h75, h73, h70, h65, h60]

/-- C9 amended, at the dewpoint 71: the label is "JUICECON 3". -/
theorem LevelDisplay_Calculate_witness :
    ∃ n : ℤ, (Calculate (F64.fin 71)).Level = some n ∧ 1 ≤ n ∧ n ≤ 5 ∧
      LevelDisplay (Calculate (F64.fin 71)) = some ("JUICECON " ++ Itoa n) ∧
      LevelDisplay (Calculate (F64.fin 71)) ∈
        [some "JUICECON 1", some "JUICECON 2", some "JUICECON 3", some "JUICECON 4",
          some "JUICECON 5"] :=
  (LevelDisplay_Calculate (F64.fin 71)).2.2.2 (by simp [F64.ge, F64.ofNat]; norm_num)

/-! ## The pipeline: lemmas on `makeRequest` -/

theorem makeRequest_answered {β : Type} (env : Env β) (sent : List Request) (url : String)
    (resp : Response β) (h : Answered env sent url resp) :
    makeRequest env sent url = (.ok resp, sent ++ [requestFor url]) := by
  obtain ⟨hurl, hdo, hst⟩ := h
  have hreq : ((({ Method := "GET", URL := url, Header := [] } : Request).HeaderSet
      "User-Agent" userAgent).HeaderSet "Accept" "application/geo+json") = requestFor url := rfl
  simp only [makeRequest, NewRequest, hurl, hreq, hdo, hst]
  simp

theorem makeRequest_status {β : Type} (env : Env β) (sent : List Request) (url : String)
    (resp : Response β) (hurl : env.urlError url = none)
    (hdo : env.Do sent (requestFor url) = .ok resp) (hst : resp.StatusCode ≠ 200) :
    makeRequest env sent url =
      (.error (.errorString ("API returned status " ++ Itoa resp.StatusCode)),
        sent ++ [requestFor url]) := by
  have hreq : ((({ Method := "GET", URL := url, Header := [] } : Request).HeaderSet
      "User-Agent" userAgent).HeaderSet "Accept" "application/geo+json") = requestFor url := rfl
  simp only [makeRequest, NewRequest, hurl, hreq, hdo]
  simp [hst]

theorem GetObservation_of_stages {β : Type} (env : Env β) (lat lon : F64)
    (points : NWSPointsResponse) (stations : NWSStationsResponse)
    (first : StationFeature) (rest : List StationFeature) (obs : NWSObservationResponse)
    (hA : StageA env lat lon points) (hB : StageB env lat lon points stations)
    (hF : stations.Features = first :: rest)
    (hC : StageC env lat lon points first.Properties.StationIdentifier obs) :
    GetObservation env lat lon =
      match obs.Properties.Dewpoint.Value with
      | none =>
        ⟨none, some (.errorString "dewpoint data not available"),
          [requestFor (pointsURL env lat lon), requestFor points.Properties.ObservationStations,
            requestFor (obsURL first.Properties.StationIdentifier)]⟩
      | some dewpointC =>
        ⟨some { DewpointC := dewpointC
                DewpointF := celsiusToFahrenheit dewpointC
                Timestamp := (env.timeParse obs.Properties.Timestamp).getD Time.zero
                Station := first.Properties.StationIdentifier
                City := points.Properties.RelativeLocation.Properties.City
                State := points.Properties.RelativeLocation.Properties.State },
          none,
          [requestFor (pointsURL env lat lon), requestFor points.Properties.ObservationStations,
            requestFor (obsURL first.Properties.StationIdentifier)]⟩ := by
  obtain ⟨rA, hA1, hA2⟩ := hA
  obtain ⟨rB, hB1, hB2⟩ := hB
  obtain ⟨rC, hC1, hC2⟩ := hC
  have mA := makeRequest_answered env _ _ _ hA1
  have mB := makeRequest_answered env _ _ _ hB1
  have mC := makeRequest_answered env _ _ _ hC1
  simp only [List.nil_append, List.cons_append] at mA mB mC
  simp only [GetObservation, mA, hA2, mB, hB2, hF, mC, hC2]

/-! ## Messages of the stages -/

theorem append_ne_append_of_take (p₁ p₂ x y : String) (n : ℕ)
    (h1 : n ≤ p₁.data.length) (h2 : n ≤ p₂.data.length)
    (h : p₁.data.take n ≠ p₂.data.take n) : p₁ ++ x ≠ p₂ ++ y := by
  intro heq
  apply h
  have key := congrArg (fun s : String => s.data.take n) heq
  simpa [String.data_append, List.take_append_of_le_length h1,
    List.take_append_of_le_length h2] using key

theorem ne_append_of_take (m p y : String) (n : ℕ)
    (h1 : n ≤ m.data.length) (h2 : n ≤ p.data.length)
    (h : m.data.take n ≠ p.data.take n) : m ≠ p ++ y := by
  have key := append_ne_append_of_take m p "" y n h1 h2 h
  simpa using key

theorem Errorf_w_Error (pfx : String) (err : GoError) :
    (Errorf_w pfx err).Error = pfx ++ err.Error := rfl

theorem errorString_Error (msg : String) : (GoError.errorString msg).Error = msg := rfl

/-! ## The pipeline: failures of stage A and stage B -/

/-- C3: when the points request is answered with a status code other than
200, `GetObservation` returns no observation and the error of the points
lookup with the status code in its message, a message that differs from
that of every failure of the later stages, and exactly one request has been
sent: those of stages B and C are never made. -/
theorem GetObservation_points_status {β : Type} (env : Env β) (lat lon : F64)
    (resp : Response β)
    (hurl : env.urlError (pointsURL env lat lon) = none)
    (hdo : env.Do [] (requestFor (pointsURL env lat lon)) = .ok resp)
    (hst : resp.StatusCode ≠ 200) :
    (GetObservation env lat lon).obs = none ∧
    (GetObservation env lat lon).err.map GoError.Error =
      some ("points lookup failed: " ++ ("API returned status " ++ Itoa resp.StatusCode)) ∧
    (GetObservation env lat lon).sent = [requestFor (pointsURL env lat lon)] ∧
    (GetObservation env lat lon).sent.length = 1 ∧
    (∀ later : GoError,
      (GetObservation env lat lon).err.map GoError.Error ≠
        some (Errorf_w "stations lookup failed: " later).Error ∧
      (GetObservation env lat lon).err.map GoError.Error ≠
        some (Errorf_w "failed to decode stations response: " later).Error ∧
      (GetObservation env lat lon).err.map GoError.Error ≠
        some (GoError.errorString "no observation stations found").Error ∧
      (GetObservation env lat lon).err.map GoError.Error ≠
        some (Errorf_w "observation lookup failed: " later).Error ∧
      (GetObservation env lat lon).err.map GoError.Error ≠
        some (Errorf_w "failed to decode observation response: " later).Error ∧
      (GetObservation env lat lon).err.map GoError.Error ≠
        some (GoError.errorString "dewpoint data not available").Error) := by
  have m := makeRequest_status env [] _ resp hurl hdo hst
  simp only [List.nil_append] at m
  have hout : GetObservation env lat lon =
      ⟨none, some (Errorf_w "points lookup failed: "
          (.errorString ("API returned status " ++ Itoa resp.StatusCode))),
        [requestFor (pointsURL env lat lon)]⟩ := by
    simp only [GetObservation, m]
  rw [hout]
  refine ⟨rfl, rfl, rfl, rfl, ?_⟩
  intro later
  simp only [Option.map_some', Errorf_w_Error, GoError.Error, ne_eq, Option.some.injEq]
  refine ⟨?_, ?_, ?_, ?_, ?_, ?_⟩
  · exact append_ne_append_of_take _ _ _ _ 1 (by decide) (by decide) (by decide)
  · exact append_ne_append_of_take _ _ _ _ 1 (by decide) (by decide) (by decide)
  · exact fun h => ne_append_of_take _ _ _ 1 (by decide) (by decide) (by decide) h.symm
  · exact append_ne_append_of_take _ _ _ _ 1 (by decide) (by decide) (by decide)
  · exact append_ne_append_of_take _ _ _ _ 1 (by decide) (by decide) (by decide)
  · exact fun h => ne_append_of_take _ _ _ 1 (by decide) (by decide) (by decide) h.symm

/-- A remote side that answers the points request with status 404. -/
theorem envNotFound_run :
    envNotFound.urlError (pointsURL envNotFound latNY lonNY) = none ∧
    envNotFound.Do [] (requestFor (pointsURL envNotFound latNY lonNY)) = .ok ⟨404, none⟩ :=
  ⟨rfl, rfl⟩

/-- C3, on a remote side that answers the points request with status 404:
the message is "points lookup failed: API returned status 404". -/
theorem GetObservation_points_status_witness :
    (GetObservation envNotFound latNY lonNY).err.map GoError.Error =
      some "points lookup failed: API returned status 404" ∧
    (GetObservation envNotFound latNY lonNY).sent.length = 1 := by
  have h := GetObservation_points_status envNotFound latNY lonNY ⟨404, none⟩ envNotFound_run.1
    envNotFound_run.2 (by decide)
  refine ⟨?_, h.2.2.2.1⟩
  rw [h.2.1]
  decide

/-- C4: when stages A and B succeed and the decoded station list is empty,
`GetObservation` returns no observation and the error "no observation
stations found", whose message differs from those of a failed stations
lookup and of a failed decoding of the stations response, and exactly two
requests have been sent: that of stage C is never made. -/
theorem GetObservation_no_stations {β : Type} (env : Env β) (lat lon : F64)
    (points : NWSPointsResponse) (stations : NWSStationsResponse)
    (hA : StageA env lat lon points) (hB : StageB env lat lon points stations)
    (hF : stations.Features = []) :
    (GetObservation env lat lon).obs = none ∧
    (GetObservation env lat lon).err = some (.errorString "no observation stations found") ∧
    (GetObservation env lat lon).sent =
      [requestFor (pointsURL env lat lon), requestFor points.Properties.ObservationStations] ∧
    (GetObservation env lat lon).sent.length = 2 ∧
    (∀ cause : GoError,
      (GetObservation env lat lon).err.map GoError.Error ≠
        some (Errorf_w "stations lookup failed: " cause).Error ∧
      (GetObservation env lat lon).err.map GoError.Error ≠
        some (Errorf_w "failed to decode stations response: " cause).Error) := by
  obtain ⟨rA, hA1, hA2⟩ := hA
  obtain ⟨rB, hB1, hB2⟩ := hB
  have mA := makeRequest_answered env _ _ _ hA1
  have mB := makeRequest_answered env _ _ _ hB1
  simp only [List.nil_append, List.cons_append] at mA mB
  have hout : GetObservation env lat lon =
      ⟨none, some (.errorString "no observation stations found"),
        [requestFor (pointsURL env lat lon),
          requestFor points.Properties.ObservationStations]⟩ := by
    simp only [GetObservation, mA, hA2, mB, hB2, hF]
  rw [hout]
  refine ⟨rfl, rfl, rfl, rfl, ?_⟩
  intro cause
  simp only [Option.map_some', GoError.Error, Errorf_w_Error, ne_eq, Option.some.injEq]
  exact ⟨ne_append_of_take _ _ _ 1 (by decide) (by decide) (by decide),
    ne_append_of_take _ _ _ 1 (by decide) (by decide) (by decide)⟩

/-! ## Concrete runs: the stages of the scripted remote side -/

theorem mockEnv_decodePoints (a b c : Except GoError (Response (Option Json))) :
    (mockEnv a b c).decodePoints (some pointsBody) = .ok pointsNY := by
  show (jsonDecodePoints keyFold (some pointsBody)).mapError JsonError.toGo = .ok pointsNY
  decide!

theorem mockEnv_decodeStations (a b c : Except GoError (Response (Option Json))) :
    (mockEnv a b c).decodeStations (some stationsBody) = .ok stationsNY := by
  show (jsonDecodeStations keyFold (some stationsBody)).mapError JsonError.toGo = .ok stationsNY
  decide!

theorem mockEnv_decodeStations_empty (a b c : Except GoError (Response (Option Json))) :
    (mockEnv a b c).decodeStations (some (.obj [("features", .arr [])])) = .ok ⟨[]⟩ := by
  show (jsonDecodeStations keyFold (some (.obj [("features", .arr [])]))).mapError
    JsonError.toGo = .ok ⟨[]⟩
  decide!

theorem mockEnv_decodeObservation (a b c : Except GoError (Response (Option Json)))
    (timestamp : String) :
    (mockEnv a b c).decodeObservation (some (obsBody (.num (211 / 10)) timestamp)) =
      .ok ⟨⟨⟨some dewpoint21_1, "wmoUnit:degC"⟩, timestamp⟩⟩ := by
  have hv : decFloatPtr (.num (211 / 10)) = .ok (some dewpoint21_1) := by decide!
  have h1 : keyFold "properties" "properties" = true := by decide
  have h2 : keyFold "timestamp" "dewpoint" = false := by decide
  have h3 : keyFold "timestamp" "timestamp" = true := by decide
  have h4 : keyFold "dewpoint" "dewpoint" = true := by decide
  have h5 : keyFold "unitCode" "value" = false := by decide
  have h6 : keyFold "unitCode" "unitCode" = true := by decide
  have h7 : keyFold "value" "value" = true := by decide
  show (jsonDecodeObservation keyFold (some (obsBody (.num (211 / 10)) timestamp))).mapError
    JsonError.toGo = _
  simp [jsonDecodeObservation, obsBody, decStruct, decMembers, observationField,
    observationPropertiesField, dewpointField, decString, hv, h1, h2, h3, h4, h5, h6, h7,
    Except.map, Except.mapError]

theorem mockEnv_decodeObservation_null (a b c : Except GoError (Response (Option Json)))
    (timestamp : String) :
    (mockEnv a b c).decodeObservation (some (obsBody .null timestamp)) =
      .ok ⟨⟨⟨none, "wmoUnit:degC"⟩, timestamp⟩⟩ := by
  have h1 : keyFold "properties" "properties" = true := by decide
  have h2 : keyFold "timestamp" "dewpoint" = false := by decide
  have h3 : keyFold "timestamp" "timestamp" = true := by decide
  have h4 : keyFold "dewpoint" "dewpoint" = true := by decide
  have h5 : keyFold "unitCode" "value" = false := by decide
  have h6 : keyFold "unitCode" "unitCode" = true := by decide
  have h7 : keyFold "value" "value" = true := by decide
  show (jsonDecodeObservation keyFold (some (obsBody .null timestamp))).mapError
    JsonError.toGo = _
  simp [jsonDecodeObservation, obsBody, decStruct, decMembers, observationField,
    observationPropertiesField, dewpointField, decString, decFloatPtr, h1, h2, h3, h4, h5, h6,
    h7, Except.map, Except.mapError]

theorem mockEnv_decodeObservation_absent (a b c : Except GoError (Response (Option Json))) :
    (mockEnv a b c).decodeObservation
      (some (.obj [("properties", .obj [("dewpoint", .obj [("unitCode", .str "wmoUnit:degC")]),
        ("timestamp", .str "2024-07-15T18:51:00+00:00")])])) =
      .ok ⟨⟨⟨none, "wmoUnit:degC"⟩, "2024-07-15T18:51:00+00:00"⟩⟩ := by
  show (jsonDecodeObservation keyFold
    (some (.obj [("properties", .obj [("dewpoint", .obj [("unitCode", .str "wmoUnit:degC")]),
      ("timestamp", .str "2024-07-15T18:51:00+00:00")])]))).mapError JsonError.toGo =
    .ok ⟨⟨⟨none, "wmoUnit:degC"⟩, "2024-07-15T18:51:00+00:00"⟩⟩
  decide!

theorem envNewYork_stageA (value : Json) (timestamp : String) :
    StageA (envNewYork value timestamp) latNY lonNY pointsNY :=
  ⟨⟨200, some pointsBody⟩, ⟨rfl, rfl, rfl⟩, mockEnv_decodePoints _ _ _⟩

theorem envNewYork_stageB (value : Json) (timestamp : String) :
    StageB (envNewYork value timestamp) latNY lonNY pointsNY stationsNY :=
  ⟨⟨200, some stationsBody⟩, ⟨rfl, rfl, rfl⟩, mockEnv_decodeStations _ _ _⟩

theorem envNewYork_stageC (timestamp : String) :
    StageC (envNewYork (.num (211 / 10)) timestamp) latNY lonNY pointsNY "KNYC"
      ⟨⟨⟨some dewpoint21_1, "wmoUnit:degC"⟩, timestamp⟩⟩ :=
  ⟨⟨200, some (obsBody (.num (211 / 10)) timestamp)⟩, ⟨rfl, rfl, rfl⟩,
    mockEnv_decodeObservation _ _ _ _⟩

theorem envNewYork_stageC_null (timestamp : String) :
    StageC (envNewYork .null timestamp) latNY lonNY pointsNY "KNYC"
      ⟨⟨⟨none, "wmoUnit:degC"⟩, timestamp⟩⟩ :=
  ⟨⟨200, some (obsBody .null timestamp)⟩, ⟨rfl, rfl, rfl⟩,
    mockEnv_decodeObservation_null _ _ _ _⟩

theorem envNoStations_stageA : StageA envNoStations latNY lonNY pointsNY :=
  ⟨⟨200, some pointsBody⟩, ⟨rfl, rfl, rfl⟩, mockEnv_decodePoints _ _ _⟩

theorem envNoStations_stageB : StageB envNoStations latNY lonNY pointsNY ⟨[]⟩ :=
  ⟨⟨200, some (.obj [("features", .arr [])])⟩, ⟨rfl, rfl, rfl⟩,
    mockEnv_decodeStations_empty _ _ _⟩

/-- C4, on a remote side whose station list is empty. -/
theorem GetObservation_no_stations_witness :
    (GetObservation envNoStations latNY lonNY).obs = none ∧
    (GetObservation envNoStations latNY lonNY).err =
      some (.errorString "no observation stations found") ∧
    (GetObservation envNoStations latNY lonNY).sent =
      [requestFor (pointsURL envNoStations latNY lonNY),
        requestFor pointsNY.Properties.ObservationStations] ∧
    (GetObservation envNoStations latNY lonNY).sent.length = 2 ∧
    (∀ cause : GoError,
      (GetObservation envNoStations latNY lonNY).err.map GoError.Error ≠
        some (Errorf_w "stations lookup failed: " cause).Error ∧
      (GetObservation envNoStations latNY lonNY).err.map GoError.Error ≠
        some (Errorf_w "failed to decode stations response: " cause).Error) :=
  GetObservation_no_stations envNoStations latNY lonNY pointsNY ⟨[]⟩ envNoStations_stageA
    envNoStations_stageB rfl

/-! ## The pipeline: what a returned observation implies -/

theorem makeRequest_ok_inv {β : Type} (env : Env β) (sent s' : List Request) (url : String)
    (resp : Response β) (h : makeRequest env sent url = (.ok resp, s')) :
    Answered env sent url resp ∧ s' = sent ++ [requestFor url] := by
  have hreq : ((({ Method := "GET", URL := url, Header := [] } : Request).HeaderSet
      "User-Agent" userAgent).HeaderSet "Accept" "application/geo+json") = requestFor url := rfl
  unfold makeRequest NewRequest at h
  cases hu : env.urlError url with
  | some e => simp [hu] at h
  | none =>
    simp only [hu, hreq] at h
    cases hd : env.Do sent (requestFor url) with
    | error e => simp [hd] at h
    | ok r =>
      simp only [hd] at h
      by_cases hs : r.StatusCode = 200
      · simp only [hs, ne_eq, not_true_eq_false, ↓reduceIte, Prod.mk.injEq,
          Except.ok.injEq] at h
        obtain ⟨h1, h2⟩ := h
        subst h1
        exact ⟨⟨hu, hd, hs⟩, h2.symm⟩
      · simp [hs] at h

theorem GetObservation_obs_or_err {β : Type} (env : Env β) (lat lon : F64) :
    ((GetObservation env lat lon).obs.isSome = true ∧ (GetObservation env lat lon).err = none) ∨
    ((GetObservation env lat lon).obs = none ∧
      (GetObservation env lat lon).err.isSome = true) := by
  unfold GetObservation
  split
  · simp
  split
  · simp
  split
  · simp
  split
  · simp
  split
  · simp
  dsimp only
  split
  · simp
  split
  · simp
  split <;> simp

theorem GetObservation_obs_inv {β : Type} (env : Env β) (lat lon : F64) (o : Observation)
    (h : (GetObservation env lat lon).obs = some o) :
    ∃ points stations first rest obs,
      StageA env lat lon points ∧ StageB env lat lon points stations ∧
      stations.Features = first :: rest ∧
      StageC env lat lon points first.Properties.StationIdentifier obs ∧
      obs.Properties.Dewpoint.Value = some o.DewpointC := by
  unfold GetObservation at h
  split at h
  · simp at h
  rename_i pointsResp s1 hm1
  obtain ⟨hA1, hs1⟩ := makeRequest_ok_inv env _ _ _ _ hm1
  split at h
  · simp at h
  rename_i points hp
  split at h
  · simp at h
  rename_i stationsResp s2 hm2
  obtain ⟨hB1, hs2⟩ := makeRequest_ok_inv env _ _ _ _ hm2
  split at h
  · simp at h
  rename_i stations hst
  split at h
  · simp at h
  rename_i first rest hF
  dsimp only at h
  split at h
  · simp at h
  rename_i obsResp s3 hm3
  obtain ⟨hC1, hs3⟩ := makeRequest_ok_inv env _ _ _ _ hm3
  split at h
  · simp at h
  rename_i obs hobs
  split at h
  · simp at h
  rename_i dewpointC hv
  simp only [Option.some.injEq] at h
  subst hs1 hs2
  simp only [List.nil_append, List.cons_append] at hB1 hC1
  refine ⟨points, stations, first, rest, obs, ⟨pointsResp, hA1, hp⟩, ⟨stationsResp, hB1, hst⟩,
    hF, ⟨obsResp, hC1, hobs⟩, ?_⟩
  rw [hv, ← h]

/-! ## The pipeline: successful runs, the dewpoint and the timestamp -/

/-- C2: in a run whose three stages are answered with status 200 and
decodable bodies, with a non-empty station list and a dewpoint value present,
`GetObservation` returns no error and the observation whose station is the
identifier of the first entry of the station list (the other entries play no
part), whose city and state are those of the stage-A relative location,
whose `DewpointC` is the stage-C dewpoint value and whose `DewpointF` is
`celsiusToFahrenheit` of it, whatever the `unitCode` string is. -/
theorem GetObservation_success {β : Type} (env : Env β) (lat lon : F64)
    (points : NWSPointsResponse) (stations : NWSStationsResponse)
    (first : StationFeature) (rest : List StationFeature) (obs : NWSObservationResponse)
    (dewpointC : F64) (unitCode : String)
    (hA : StageA env lat lon points) (hB : StageB env lat lon points stations)
    (hF : stations.Features = first :: rest)
    (hC : StageC env lat lon points first.Properties.StationIdentifier obs)
    (hV : obs.Properties.Dewpoint = ⟨some dewpointC, unitCode⟩) :
    (GetObservation env lat lon).err = none ∧
    (GetObservation env lat lon).obs =
      some { DewpointC := dewpointC
             DewpointF := celsiusToFahrenheit dewpointC
             Timestamp := (env.timeParse obs.Properties.Timestamp).getD Time.zero
             Station := first.Properties.StationIdentifier
             City := points.Properties.RelativeLocation.Properties.City
             State := points.Properties.RelativeLocation.Properties.State } := by
  have hv : obs.Properties.Dewpoint.Value = some dewpointC := by rw [hV]
  rw [GetObservation_of_stages env lat lon points stations first rest obs hA hB hF hC, hv]
  exact ⟨rfl, rfl⟩

/-- C2, on the scripted remote side: New York, NY, the stations KNYC and
KLGA, a dewpoint of 21.1 degrees Celsius. The Fahrenheit dewpoint is the
`float64` next to 69.98, which `Calculate` puts at ordinal 4, "Miserable". -/
theorem GetObservation_success_witness :
    (GetObservation (envNewYork (.num (211 / 10)) "2024-07-15T18:51:00+00:00") latNY
      lonNY).err = none ∧
    (GetObservation (envNewYork (.num (211 / 10)) "2024-07-15T18:51:00+00:00") latNY
      lonNY).obs =
      some { DewpointC := dewpoint21_1
             DewpointF := celsiusToFahrenheit dewpoint21_1
             Timestamp := (mockTimeParse "2024-07-15T18:51:00+00:00").getD Time.zero
             Station := "KNYC"
             City := "New York"
             State := "NY" } ∧
    celsiusToFahrenheit dewpoint21_1 = .fin (4924404717552927 / 70368744177664) ∧
    |(4924404717552927 / 70368744177664 : ℚ) - 6998 / 100| < 1 / 10 ^ 13 ∧
    Calculate (celsiusToFahrenheit dewpoint21_1) =
      ⟨some 4, "Miserable", "Existence is damp. Consider relocation.", false⟩ := by
  have h := GetObservation_success (envNewYork (.num (211 / 10)) "2024-07-15T18:51:00+00:00")
    latNY lonNY pointsNY stationsNY ⟨⟨"KNYC"⟩⟩ [⟨⟨"KLGA"⟩⟩]
    ⟨⟨⟨some dewpoint21_1, "wmoUnit:degC"⟩, "2024-07-15T18:51:00+00:00"⟩⟩ dewpoint21_1
    "wmoUnit:degC" (envNewYork_stageA _ _) (envNewYork_stageB _ _) rfl (envNewYork_stageC _) rfl
  refine ⟨h.1, h.2, by decide!, ?_, by decide!⟩
  rw [abs_lt]
  constructor <;> norm_num

/-- C5: `GetObservation` returns an observation if and only if it returns no
error; when stage C succeeds at the transport and decode level but the
dewpoint value is nil (null or absent in the body), it returns no observation
and the error "dewpoint data not available"; and every observation it returns
carries a dewpoint value that was present in the decoded stage-C response. -/
theorem GetObservation_dewpoint_present {β : Type} (env : Env β) (lat lon : F64) :
    ((GetObservation env lat lon).obs.isSome = true ↔ (GetObservation env lat lon).err = none) ∧
    (∀ points stations first rest obs,
      StageA env lat lon points → StageB env lat lon points stations →
      stations.Features = first :: rest →
      StageC env lat lon points first.Properties.StationIdentifier obs →
      obs.Properties.Dewpoint.Value = none →
      (GetObservation env lat lon).obs = none ∧
        (GetObservation env lat lon).err =
          some (.errorString "dewpoint data not available")) ∧
    (∀ o, (GetObservation env lat lon).obs = some o →
      ∃ points stations first rest obs,
        StageA env lat lon points ∧ StageB env lat lon points stations ∧
        stations.Features = first :: rest ∧
        StageC env lat lon points first.Properties.StationIdentifier obs ∧
        obs.Properties.Dewpoint.Value = some o.DewpointC) := by
  refine ⟨?_, ?_, ?_⟩
  · rcases GetObservation_obs_or_err env lat lon with ⟨h1, h2⟩ | ⟨h1, h2⟩
    · simp [h1, h2]
    · constructor
      · intro h
        simp [h1] at h
      · intro h
        simp [h] at h2
  · intro points stations first rest obs hA hB hF hC hV
    rw [GetObservation_of_stages env lat lon points stations first rest obs hA hB hF hC, hV]
    exact ⟨rfl, rfl⟩
  · intro o h
    exact GetObservation_obs_inv env lat lon o h

/-- C5, on the scripted remote side with a null dewpoint value: no
observation, and the error "dewpoint data not available". -/
theorem GetObservation_dewpoint_present_witness :
    (GetObservation (envNewYork .null "2024-07-15T18:51:00+00:00") latNY lonNY).obs = none ∧
    (GetObservation (envNewYork .null "2024-07-15T18:51:00+00:00") latNY lonNY).err =
      some (.errorString "dewpoint data not available") :=
  (GetObservation_dewpoint_present (envNewYork .null "2024-07-15T18:51:00+00:00") latNY
    lonNY).2.1 pointsNY stationsNY ⟨⟨"KNYC"⟩⟩ [⟨⟨"KLGA"⟩⟩]
    ⟨⟨⟨none, "wmoUnit:degC"⟩, "2024-07-15T18:51:00+00:00"⟩⟩ (envNewYork_stageA _ _)
    (envNewYork_stageB _ _) rfl (envNewYork_stageC_null _) rfl

/-- C6: in a run whose three stages succeed with a dewpoint value present,
when the stage-C timestamp string cannot be parsed `GetObservation` still
returns no error, and an observation whose `Timestamp` is the zero instant;
every other field is what it is under any other time parser, one that parses
the string included. -/
theorem GetObservation_lenient_timestamp {β : Type} (env : Env β) (lat lon : F64)
    (points : NWSPointsResponse) (stations : NWSStationsResponse)
    (first : StationFeature) (rest : List StationFeature) (obs : NWSObservationResponse)
    (dewpointC : F64)
    (hA : StageA env lat lon points) (hB : StageB env lat lon points stations)
    (hF : stations.Features = first :: rest)
    (hC : StageC env lat lon points first.Properties.StationIdentifier obs)
    (hV : obs.Properties.Dewpoint.Value = some dewpointC)
    (hT : env.timeParse obs.Properties.Timestamp = none) :
    (GetObservation env lat lon).err = none ∧
    (∃ o, (GetObservation env lat lon).obs = some o ∧ o.Timestamp = Time.zero ∧
      ∀ parse : String → Option Time,
        (GetObservation { env with timeParse := parse } lat lon).err = none ∧
        (GetObservation { env with timeParse := parse } lat lon).obs =
          some { o with Timestamp := (parse obs.Properties.Timestamp).getD Time.zero }) := by
  rw [GetObservation_of_stages env lat lon points stations first rest obs hA hB hF hC, hV]
  refine ⟨rfl, _, rfl, ?_, ?_⟩
  · simp [hT]
  · intro parse
    have hA' : StageA { env with timeParse := parse } lat lon points := hA
    have hB' : StageB { env with timeParse := parse } lat lon points stations := hB
    have hC' : StageC { env with timeParse := parse } lat lon points
        first.Properties.StationIdentifier obs := hC
    rw [GetObservation_of_stages _ lat lon points stations first rest obs hA' hB' hF hC', hV]
    exact ⟨rfl, rfl⟩

/-- C6, on the scripted remote side with the timestamp "yesterday", which
the time parser rejects. -/
theorem GetObservation_lenient_timestamp_witness :
    (GetObservation (envNewYork (.num (211 / 10)) "yesterday") latNY lonNY).err = none ∧
    (∃ o, (GetObservation (envNewYork (.num (211 / 10)) "yesterday") latNY lonNY).obs = some o ∧
      o.Timestamp = Time.zero ∧
      ∀ parse : String → Option Time,
        (GetObservation { envNewYork (.num (211 / 10)) "yesterday" with timeParse := parse }
          latNY lonNY).err = none ∧
        (GetObservation { envNewYork (.num (211 / 10)) "yesterday" with timeParse := parse }
          latNY lonNY).obs =
          some { o with Timestamp := (parse "yesterday").getD Time.zero }) :=
  GetObservation_lenient_timestamp (envNewYork (.num (211 / 10)) "yesterday") latNY lonNY
    pointsNY stationsNY ⟨⟨"KNYC"⟩⟩ [⟨⟨"KLGA"⟩⟩]
    ⟨⟨⟨some dewpoint21_1, "wmoUnit:degC"⟩, "yesterday"⟩⟩ dewpoint21_1
    (envNewYork_stageA _ _) (envNewYork_stageB _ _) rfl (envNewYork_stageC _) rfl (by decide)

/-! ## The pipeline: a points body that does not decode -/

theorem GetObservation_after_stageA {β : Type} (env : Env β) (lat lon : F64)
    (points : NWSPointsResponse) (hA : StageA env lat lon points) (cause : GoError) :
    (GetObservation env lat lon).err.map GoError.Error ≠
      some (Errorf_w "points lookup failed: " cause).Error ∧
    (GetObservation env lat lon).err.map GoError.Error ≠
      some (Errorf_w "failed to decode points response: " cause).Error := by
  obtain ⟨rA, hA1, hA2⟩ := hA
  have mA := makeRequest_answered env _ _ _ hA1
  simp only [List.nil_append] at mA
  have k1 : ∀ x y : String, "stations lookup failed: " ++ x ≠ "points lookup failed: " ++ y :=
    fun _ _ => append_ne_append_of_take _ _ _ _ 1 (by decide) (by decide) (by decide)
  have k2 : ∀ x y : String,
      "stations lookup failed: " ++ x ≠ "failed to decode points response: " ++ y :=
    fun _ _ => append_ne_append_of_take _ _ _ _ 1 (by decide) (by decide) (by decide)
  have k3 : ∀ x y : String,
      "failed to decode stations response: " ++ x ≠ "points lookup failed: " ++ y :=
    fun _ _ => append_ne_append_of_take _ _ _ _ 1 (by decide) (by decide) (by decide)
  have k4 : ∀ x y : String, "failed to decode stations response: " ++ x ≠
      "failed to decode points response: " ++ y :=
    fun _ _ => append_ne_append_of_take _ _ _ _ 18 (by decide) (by decide) (by decide)
  have k5 : ∀ y : String, "no observation stations found" ≠ "points lookup failed: " ++ y :=
    fun _ => ne_append_of_take _ _ _ 1 (by decide) (by decide) (by decide)
  have k6 : ∀ y : String,
      "no observation stations found" ≠ "failed to decode points response: " ++ y :=
    fun _ => ne_append_of_take _ _ _ 1 (by decide) (by decide) (by decide)
  have k7 : ∀ x y : String, "observation lookup failed: " ++ x ≠ "points lookup failed: " ++ y :=
    fun _ _ => append_ne_append_of_take _ _ _ _ 1 (by decide) (by decide) (by decide)
  have k8 : ∀ x y : String,
      "observation lookup failed: " ++ x ≠ "failed to decode points response: " ++ y :=
    fun _ _ => append_ne_append_of_take _ _ _ _ 1 (by decide) (by decide) (by decide)
  have k9 : ∀ x y : String,
      "failed to decode observation response: " ++ x ≠ "points lookup failed: " ++ y :=
    fun _ _ => append_ne_append_of_take _ _ _ _ 1 (by decide) (by decide) (by decide)
  have k10 : ∀ x y : String, "failed to decode observation response: " ++ x ≠
      "failed to decode points response: " ++ y :=
    fun _ _ => append_ne_append_of_take _ _ _ _ 18 (by decide) (by decide) (by decide)
  have k11 : ∀ y : String, "dewpoint data not available" ≠ "points lookup failed: " ++ y :=
    fun _ => ne_append_of_take _ _ _ 1 (by decide) (by decide) (by decide)
  have k12 : ∀ y : String,
      "dewpoint data not available" ≠ "failed to decode points response: " ++ y :=
    fun _ => ne_append_of_take _ _ _ 1 (by decide) (by decide) (by decide)
  simp only [GetObservation, mA, hA2]
  split
  · simp [Errorf_w_Error, k1, k2]
  split
  · simp [Errorf_w_Error, k3, k4]
  split
  · simp [errorString_Error, Errorf_w_Error, k5, k6]
  split
  · simp [Errorf_w_Error, k7, k8]
  split
  · simp [Errorf_w_Error, k9, k10]
  split
  · simp [errorString_Error, Errorf_w_Error, k11, k12]
  · simp

theorem mockEnv_stageA_empty_object (b c : Except GoError (Response (Option Json))) :
    StageA (mockEnv (.ok ⟨200, some (.obj [])⟩) b c) latNY lonNY ⟨⟨⟨⟨"", ""⟩⟩, ""⟩⟩ :=
  ⟨⟨200, some (.obj [])⟩, ⟨rfl, rfl, rfl⟩, rfl⟩

/-- C7, as stated, fails on the empty JSON object: answered with status 200
and that body, stage A succeeds (the body decodes, every field left empty),
a second request is made with the empty reference as its URL, and the error
returned is that of the stations lookup; whatever the remote side does after
that body, the error is never one of the points stage. -/
theorem GetObservation_empty_object_counterexample :
    envEmptyObject.decodePoints (some (.obj [])) = .ok ⟨⟨⟨⟨"", ""⟩⟩, ""⟩⟩ ∧
    GetObservation envEmptyObject latNY lonNY =
      ⟨none,
        some (Errorf_w "stations lookup failed: " (.errorString "unsupported protocol scheme")),
        [requestFor "https://api.weather.gov/points/40.7500,-74.0000", requestFor ""]⟩ ∧
    (∀ (b c : Except GoError (Response (Option Json))) (cause : GoError),
      (GetObservation (mockEnv (.ok ⟨200, some (.obj [])⟩) b c) latNY lonNY).err.map
          GoError.Error ≠ some (Errorf_w "points lookup failed: " cause).Error ∧
      (GetObservation (mockEnv (.ok ⟨200, some (.obj [])⟩) b c) latNY lonNY).err.map
          GoError.Error ≠ some (Errorf_w "failed to decode points response: " cause).Error) :=
  ⟨rfl, by decide!, fun b c cause =>
    GetObservation_after_stageA _ latNY lonNY _ (mockEnv_stageA_empty_object b c) cause⟩

/-- C7, amended: when the points request is answered with status 200 and the
decoding of its body into `NWSPointsResponse` fails (the body is not JSON, or
a JSON value in it does not fit the field it is decoded into),
`GetObservation` returns no observation and the error "failed to decode
points response" wrapping the cause, after one request; its message differs
from the message of every failure of the later stages. -/
theorem GetObservation_points_decode {β : Type} (env : Env β) (lat lon : F64)
    (resp : Response β) (cause : GoError)
    (hA : Answered env [] (pointsURL env lat lon) resp)
    (hD : env.decodePoints resp.Body = .error cause) :
    (GetObservation env lat lon).obs = none ∧
    (GetObservation env lat lon).err =
      some (Errorf_w "failed to decode points response: " cause) ∧
    (GetObservation env lat lon).sent = [requestFor (pointsURL env lat lon)] ∧
    (∀ later : GoError,
      (GetObservation env lat lon).err.map GoError.Error ≠
        some (Errorf_w "stations lookup failed: " later).Error ∧
      (GetObservation env lat lon).err.map GoError.Error ≠
        some (Errorf_w "failed to decode stations response: " later).Error ∧
      (GetObservation env lat lon).err.map GoError.Error ≠
        some (GoError.errorString "no observation stations found").Error ∧
      (GetObservation env lat lon).err.map GoError.Error ≠
        some (Errorf_w "observation lookup failed: " later).Error ∧
      (GetObservation env lat lon).err.map GoError.Error ≠
        some (Errorf_w "failed to decode observation response: " later).Error ∧
      (GetObservation env lat lon).err.map GoError.Error ≠
        some (GoError.errorString "dewpoint data not available").Error) := by
  have mA := makeRequest_answered env _ _ _ hA
  simp only [List.nil_append] at mA
  have hout : GetObservation env lat lon =
      ⟨none, some (Errorf_w "failed to decode points response: " cause),
        [requestFor (pointsURL env lat lon)]⟩ := by
    simp only [GetObservation, mA, hD]
  rw [hout]
  refine ⟨rfl, rfl, rfl, ?_⟩
  intro later
  simp only [Option.map_some', Errorf_w_Error, GoError.Error, ne_eq, Option.some.injEq]
  refine ⟨?_, ?_, ?_, ?_, ?_, ?_⟩
  · exact append_ne_append_of_take _ _ _ _ 1 (by decide) (by decide) (by decide)
  · exact append_ne_append_of_take _ _ _ _ 18 (by decide) (by decide) (by decide)
  · exact fun h => ne_append_of_take _ _ _ 1 (by decide) (by decide) (by decide) h.symm
  · exact append_ne_append_of_take _ _ _ _ 1 (by decide) (by decide) (by decide)
  · exact append_ne_append_of_take _ _ _ _ 18 (by decide) (by decide) (by decide)
  · exact fun h => ne_append_of_take _ _ _ 1 (by decide) (by decide) (by decide) h.symm

/-- C7 amended, on a remote side whose points body is not JSON. -/
theorem GetObservation_points_decode_witness :
    (GetObservation envBadPoints latNY lonNY).obs = none ∧
    (GetObservation envBadPoints latNY lonNY).err =
      some (Errorf_w "failed to decode points response: " JsonError.SyntaxError.toGo) ∧
    (GetObservation envBadPoints latNY lonNY).sent =
      [requestFor (pointsURL envBadPoints latNY lonNY)] ∧
    (∀ later : GoError,
      (GetObservation envBadPoints latNY lonNY).err.map GoError.Error ≠
        some (Errorf_w "stations lookup failed: " later).Error ∧
      (GetObservation envBadPoints latNY lonNY).err.map GoError.Error ≠
        some (Errorf_w "failed to decode stations response: " later).Error ∧
      (GetObservation envBadPoints latNY lonNY).err.map GoError.Error ≠
        some (GoError.errorString "no observation stations found").Error ∧
      (GetObservation envBadPoints latNY lonNY).err.map GoError.Error ≠
        some (Errorf_w "observation lookup failed: " later).Error ∧
      (GetObservation envBadPoints latNY lonNY).err.map GoError.Error ≠
        some (Errorf_w "failed to decode observation response: " later).Error ∧
      (GetObservation envBadPoints latNY lonNY).err.map GoError.Error ≠
        some (GoError.errorString "dewpoint data not available").Error) :=
  GetObservation_points_decode envBadPoints latNY lonNY ⟨200, none⟩ JsonError.SyntaxError.toGo
    ⟨rfl, rfl, rfl⟩ rfl

/-! ## Which points bodies decode -/

theorem decMembers_no_field {α : Type}
    (field : String → Option (α → Json → Except JsonError α)) (cur : α)
    (members : List (String × Json)) (h : ∀ kv ∈ members, field kv.1 = none) :
    decMembers field cur members = .ok cur := by
  induction members with
  | nil => rfl
  | cons kv rest ih =>
    obtain ⟨k, v⟩ := kv
    have hk : field k = none := h (k, v) (List.mem_cons_self _ _)
    simp only [decMembers, hk]
    exact ih (fun kv hkv => h kv (List.mem_cons_of_mem _ hkv))

/-- Bytes that are not JSON, and JSON values other than an object or `null`,
fail to decode into `NWSPointsResponse`; an object none of whose keys is
`properties` decodes, every field left empty. -/
theorem jsonDecodePoints_cases (fold : String → String → Bool) :
    jsonDecodePoints fold none = .error .SyntaxError ∧
    (∀ items, jsonDecodePoints fold (some (.arr items)) = .error .UnmarshalTypeError) ∧
    (∀ t, jsonDecodePoints fold (some (.str t)) = .error .UnmarshalTypeError) ∧
    (∀ q, jsonDecodePoints fold (some (.num q)) = .error .UnmarshalTypeError) ∧
    (∀ b, jsonDecodePoints fold (some (.bool b)) = .error .UnmarshalTypeError) ∧
    (∀ members : List (String × Json), (∀ kv ∈ members, fold kv.1 "properties" = false) →
      jsonDecodePoints fold (some (.obj members)) = .ok ⟨⟨⟨⟨"", ""⟩⟩, ""⟩⟩) := by
  refine ⟨rfl, fun _ => rfl, fun _ => rfl, fun _ => rfl, fun _ => rfl, ?_⟩
  intro members h
  show decMembers (pointsField fold) _ members = _
  apply decMembers_no_field
  intro kv hkv
  simp [pointsField, h kv hkv]

/-! ## Unit conversion -/

theorem celsiusToFahrenheit_exact (q : ℚ) (h1 : F64.round (q * 9) = .fin (q * 9))
    (h2 : F64.round (q * 9 / 5) = .fin (q * 9 / 5))
    (h3 : F64.round (q * 9 / 5 + 32) = .fin (q * 9 / 5 + 32)) :
    celsiusToFahrenheit (.fin q) = .fin (q * 9 / 5 + 32) := by
  have e1 : F64.mul (.fin q) (F64.ofNat 9) = .fin (q * 9) := by
    show F64.round (q * ((9 : ℕ) : ℚ)) = _
    rw [Nat.cast_ofNat]
    exact h1
  have e2 : F64.div (.fin (q * 9)) (F64.ofNat 5) = .fin (q * 9 / 5) := by
    simp only [F64.div, F64.ofNat]
    rw [Nat.cast_ofNat, if_neg (by norm_num)]
    exact h2
  have e3 : F64.add (.fin (q * 9 / 5)) (F64.ofNat 32) = .fin (q * 9 / 5 + 32) := by
    show F64.round (q * 9 / 5 + ((32 : ℕ) : ℚ)) = _
    rw [Nat.cast_ofNat]
    exact h3
  rw [celsiusToFahrenheit, e1, e2, e3]

theorem celsiusToFahrenheit_of_int (n : ℤ) (hn : |n| ≤ 10 ^ 14) :
    celsiusToFahrenheit (.fin ((5 * n : ℤ) : ℚ)) = .fin ((9 * n + 32 : ℤ) : ℚ) := by
  have hb := abs_le.mp hn
  have e1 : ((5 * n : ℤ) : ℚ) * 9 = ((45 * n : ℤ) : ℚ) := by push_cast; ring
  have e2 : ((5 * n : ℤ) : ℚ) * 9 / 5 = ((9 * n : ℤ) : ℚ) := by push_cast; ring
  have e3 : ((5 * n : ℤ) : ℚ) * 9 / 5 + 32 = ((9 * n + 32 : ℤ) : ℚ) := by push_cast; ring
  have h := celsiusToFahrenheit_exact ((5 * n : ℤ) : ℚ)
    (by rw [e1]; exact F64.round_of_int _ (abs_lt.mpr ⟨by omega, by omega⟩))
    (by rw [e2]; exact F64.round_of_int _ (abs_lt.mpr ⟨by omega, by omega⟩))
    (by rw [e3]; exact F64.round_of_int _ (abs_lt.mpr ⟨by omega, by omega⟩))
  rw [e3] at h
  exact h

set_option maxRecDepth 4000 in
theorem celsiusToFahrenheit_finite_cases (q : ℚ) :
    (∃ r : ℚ, celsiusToFahrenheit (.fin q) = .fin r ∧
      |r - (q * 9 / 5 + 32)| ≤ (|q| + 5) / 2 ^ 50) ∨
    (celsiusToFahrenheit (.fin q) = .inf (decide (q < 0)) ∧ 2 ^ 1023 < |q| * 9) := by
  have a9 : |q * 9| = |q| * 9 := by rw [abs_mul]; norm_num
  rcases F64.round_cases (q * 9) with ⟨x1, h1, e1, f1⟩ | ⟨h1, hbig⟩
  swap
  · right
    rw [a9] at hbig
    refine ⟨?_, hbig⟩
    have hs : decide (q * 9 < 0) = decide (q < 0) := by
      apply decide_eq_decide.mpr
      constructor <;> intro h <;> linarith
    have m1 : F64.mul (.fin q) (F64.ofNat 9) = .inf (decide (q < 0)) := by
      show F64.round (q * ((9 : ℕ) : ℚ)) = _
      rw [Nat.cast_ofNat, h1, hs]
    rw [celsiusToFahrenheit, m1]
    have h5 : decide (((5 : ℕ) : ℚ) < 0) = false := by norm_num
    simp only [F64.div, F64.add, F64.ofNat, h5, Bool.xor_false]
  left
  have h1024 : (2 : ℚ) ^ 1024 = 2 ^ 1000 * 16777216 := by
    rw [show (1024 : ℕ) = 1000 + 24 by norm_num, pow_add]; norm_num
  have h1023 : (2 : ℚ) ^ 1023 = 2 ^ 1000 * 8388608 := by
    rw [show (1023 : ℕ) = 1000 + 23 by norm_num, pow_add]; norm_num
  have hbig1 : (1 : ℚ) ≤ 2 ^ 1000 := one_le_pow₀ (by norm_num)
  have hη0 : (0 : ℚ) ≤ 1 / 2 ^ 1075 := div_nonneg zero_le_one (pow_nonneg (by norm_num) 1075)
  have hη1 : (1 : ℚ) / 2 ^ 1075 ≤ 1 / 2 ^ 60 := by
    apply one_div_le_one_div_of_le (by norm_num)
    exact pow_le_pow_right₀ (by norm_num) (by norm_num)
  have hA : 0 ≤ |q| := abs_nonneg q
  rw [h1024] at f1
  generalize hη : (1 : ℚ) / 2 ^ 1075 = η at hη0 hη1 e1
  rw [a9] at e1
  -- the quotient
  have n1 : (0 : ℚ) ≤ |x1| := abs_nonneg x1
  have a5 : |x1 / 5| = |x1| / 5 := by rw [abs_div]; norm_num
  obtain ⟨x2, h2, e2⟩ := F64.round_err (x1 / 5) (by
    rw [a5, h1023]
    generalize (2 : ℚ) ^ 1000 = B at f1 hbig1
    linarith)
  rw [hη, a5] at e2
  have c2 : |x1| / 5 / 2 ^ 53 ≤ |x1| / 5 := by
    apply div_le_self (div_nonneg n1 (by norm_num))
    exact one_le_pow₀ (by norm_num)
  have b2 : |x2| ≤ |x1| / 5 + (|x1| / 5 / 2 ^ 53 + η) := by
    have := abs_add (x2 - x1 / 5) (x1 / 5)
    simp only [sub_add_cancel] at this
    rw [a5] at this
    linarith
  -- the sum
  have a32 : |x2 + 32| ≤ |x2| + 32 := by
    have := abs_add x2 32
    norm_num at this
    exact this
  have k5 : (1 : ℚ) / 2 ^ 60 = 1 / 1152921504606846976 := by norm_num
  rw [k5] at hη1
  obtain ⟨x3, h3, e3⟩ := F64.round_err (x2 + 32) (by
    rw [h1023]
    generalize (2 : ℚ) ^ 1000 = B at f1 hbig1
    linarith)
  rw [hη] at e3
  refine ⟨x3, ?_, ?_⟩
  · have m1 : F64.mul (.fin q) (F64.ofNat 9) = .fin x1 := by
      show F64.round (q * ((9 : ℕ) : ℚ)) = _
      rw [Nat.cast_ofNat]
      exact h1
    have m2 : F64.div (.fin x1) (F64.ofNat 5) = .fin x2 := by
      simp only [F64.div, F64.ofNat]
      rw [Nat.cast_ofNat, if_neg (by norm_num)]
      exact h2
    have m3 : F64.add (.fin x2) (F64.ofNat 32) = .fin x3 := by
      show F64.round (x2 + ((32 : ℕ) : ℚ)) = _
      rw [Nat.cast_ofNat]
      exact h3
    rw [celsiusToFahrenheit, m1, m2, m3]
  · have d1 := abs_le.mp e1
    have d2 := abs_le.mp e2
    have d3 := abs_le.mp e3
    have n2 : (0 : ℚ) ≤ |x2| := abs_nonneg x2
    have n3 : (0 : ℚ) ≤ |x2 + 32| := abs_nonneg _
    have b1 : |x1| ≤ |q| * 9 + (|q| * 9 / 2 ^ 53 + η) := by
      have := abs_add (x1 - q * 9) (q * 9)
      simp only [sub_add_cancel] at this
      rw [a9] at this
      linarith
    have k1 : |q| * 9 / 2 ^ 53 = |q| * (9 / 9007199254740992) := by norm_num; ring
    have k2 : |x1| / 5 / 2 ^ 53 = |x1| * (1 / 45035996273704960) := by norm_num; ring
    have k3 : |x2 + 32| / 2 ^ 53 = |x2 + 32| * (1 / 9007199254740992) := by norm_num; ring
    have k4 : (|q| + 5) / 2 ^ 50 = (|q| + 5) * (1 / 1125899906842624) := by norm_num; ring
    rw [k1] at e1 b1 d1
    rw [k2] at e2 b2 d2
    rw [k3] at e3 d3
    rw [k4, abs_le]
    constructor <;> linarith

/-! ## `encoding/json`: repeated keys and folded keys -/

theorem jsonDecodeStations_repeated_key :
    jsonDecodeStations keyFold (some (.obj [("features", .arr
        [.obj [("properties", .obj [("stationIdentifier", .str "KNYC")])]]),
      ("features", .arr [.obj []])])) = .ok ⟨[⟨⟨"KNYC"⟩⟩]⟩ := by
  decide!

theorem jsonDecodePoints_folded_key :
    jsonDecodePoints keyFold (some (.obj [("PROPERTIES", .obj [("relativeLocation",
        .obj [("properties", .obj [(String.mk [Char.ofNat 0x17F, 't', 'a', 't', 'e'],
          .str "NY")])])])])) = .ok ⟨⟨⟨⟨"", "NY"⟩⟩, ""⟩⟩ := by
  decide!

theorem celsiusToFahrenheit_inf (s : Bool) : celsiusToFahrenheit (.inf s) = .inf s := by
  have h9 : ¬ ((9 : ℕ) : ℚ) = 0 := by norm_num
  have h9' : decide (((9 : ℕ) : ℚ) < 0) = false := by norm_num
  have h5 : decide (((5 : ℕ) : ℚ) < 0) = false := by norm_num
  simp only [celsiusToFahrenheit, F64.mul, F64.div, F64.add, F64.ofNat, h9, h9', h5,
    if_false, Bool.xor_false]

/-- C10, as stated, fails: at 37 degrees Celsius the result is the `float64`
3469179087958835 / 2 ^ 45, not the exact 37 * 9 / 5 + 32 = 98.6; at the
`float64` next to -59.9 it is not even the exact value rounded once; and at
the `float64` next to 2e307, a finite input, the product by 9 overflows and
the result is the positive infinity, though the exact value is within the
`float64` range. -/
theorem celsiusToFahrenheit_counterexample :
    celsiusToFahrenheit (.fin 37) = .fin (3469179087958835 / 35184372088832) ∧
    celsiusToFahrenheit (.fin 37) ≠ .fin (37 * 9 / 5 + 32) ∧
    celsiusToFahrenheit (F64.round (-599 / 10)) ≠ affineRounded (F64.round (-599 / 10)) ∧
    (F64.round (2 * 10 ^ 307)).isFinite = true ∧
    celsiusToFahrenheit (F64.round (2 * 10 ^ 307)) = .inf false ∧
    (affineRounded (F64.round (2 * 10 ^ 307))).isFinite = true := by
  have h37 : celsiusToFahrenheit (.fin 37) = .fin (3469179087958835 / 35184372088832) := by
    decide!
  refine ⟨h37, ?_, by decide!, by decide!, by decide!, by decide!⟩
  rw [h37]
  intro h
  have hq : (3469179087958835 / 35184372088832 : ℚ) = 37 * 9 / 5 + 32 := F64.fin.inj h
  norm_num at hq

/-- C10, amended: `celsiusToFahrenheit c` is `c * 9 / 5 + 32` evaluated in
`float64` arithmetic, the product, the quotient and the sum each rounded to
nearest, with no other rounding step. Not-a-number and the infinities are
returned as they are; for a finite `c` the result is either finite and within
`(|c| + 5) / 2 ^ 50` of the exact `c * 9 / 5 + 32`, or the infinity of the
sign of `c`, which happens only when `9 * |c|` exceeds `2 ^ 1023`; the result
is exact whenever the three intermediate results are `float64` values, as
they are for every whole multiple `5 * n` of five degrees up to
`5 * 10 ^ 14`, which gives `9 * n + 32`; in particular 0 gives 32, 100 gives
212 and 20 gives 68. -/
theorem celsiusToFahrenheit_affine :
    celsiusToFahrenheit .nan = .nan ∧
    (∀ s : Bool, celsiusToFahrenheit (.inf s) = .inf s) ∧
    (∀ q : ℚ,
      (∃ r : ℚ, celsiusToFahrenheit (.fin q) = .fin r ∧
        |r - (q * 9 / 5 + 32)| ≤ (|q| + 5) / 2 ^ 50) ∨
      (celsiusToFahrenheit (.fin q) = .inf (decide (q < 0)) ∧ 2 ^ 1023 < |q| * 9)) ∧
    (∀ q : ℚ, F64.round (q * 9) = .fin (q * 9) → F64.round (q * 9 / 5) = .fin (q * 9 / 5) →
      F64.round (q * 9 / 5 + 32) = .fin (q * 9 / 5 + 32) →
      celsiusToFahrenheit (.fin q) = .fin (q * 9 / 5 + 32)) ∧
    (∀ n : ℤ, |n| ≤ 10 ^ 14 →
      celsiusToFahrenheit (.fin ((5 * n : ℤ) : ℚ)) = .fin ((9 * n + 32 : ℤ) : ℚ)) ∧
    celsiusToFahrenheit (F64.ofNat 0) = F64.ofNat 32 ∧
    celsiusToFahrenheit (F64.ofNat 100) = F64.ofNat 212 ∧
    celsiusToFahrenheit (F64.ofNat 20) = F64.ofNat 68 :=
  ⟨rfl, celsiusToFahrenheit_inf, celsiusToFahrenheit_finite_cases, celsiusToFahrenheit_exact,
    celsiusToFahrenheit_of_int, by decide!, by decide!, by decide!⟩

/-- C10 amended, at 1.25 degrees Celsius: the three intermediate results
11.25, 2.25 and 34.25 are `float64` values, and the result is 34.25 exactly. -/
theorem celsiusToFahrenheit_affine_witness :
    celsiusToFahrenheit (.fin (5 / 4)) = .fin (5 / 4 * 9 / 5 + 32) :=
  celsiusToFahrenheit_affine.2.2.2.1 (5 / 4) (by decide!) (by decide!) (by decide!)

end Juicecon
